import Mathlib

/-!
# Verification of the Daily Office caching/async-job layer

Shallow embedding of `src/aws/lambda_router/handler.py` and
`src/aws/lambda_generator/handler.py`: the cache-key derivation, the
dispatcher (validation, cache-aside, sync/async routing), the job-status
poller, and the generator's async completion protocol.

Python strings are Lean `String`s; Python dicts that are only ever read
at fixed keys become structures with `Option` fields; `json.dumps` bodies
become a structured `Body` value; S3 is a typed store (artifact objects,
job status records, job results — the three disjoint key namespaces the
code uses); each S3/Lambda call is recorded in an effect trace, and calls
whose exceptions the code swallows take a success flag from the
environment.  The wall clock (`datetime.now()` / `date.today()`) is an
explicit `Now` parameter.
-/

set_option maxHeartbeats 1600000

namespace DailyOffice

/-- Decimal digit character, as Python's integer formatting renders it. -/
def digCh : Nat → Char
  | 0 => '0'
  | 1 => '1'
  | 2 => '2'
  | 3 => '3'
  | 4 => '4'
  | 5 => '5'
  | 6 => '6'
  | 7 => '7'
  | 8 => '8'
  | 9 => '9'
  | _ => '?'

/-- Fueled decimal rendering of a natural number (most significant digit
first), modelling Python's `str`/f-string rendering of a nonnegative int.
Fuel-structural so that the kernel can evaluate it. -/
def natDecAux : Nat → Nat → List Char
  | 0, _ => []
  | fuel + 1, n =>
    if n < 10 then [digCh n] else natDecAux fuel (n / 10) ++ [digCh (n % 10)]

/-- Decimal rendering of a natural number. -/
def natDec (n : Nat) : String := ⟨natDecAux (n + 1) n⟩

/-- Python `str(i)` / `f"{i}"` for an int (adds a sign for negatives). -/
def intDec (i : Int) : String :=
  if i < 0 then "-" ++ natDec (-i).toNat else natDec i.toNat

/-- Python `f"{i:02d}"`: pad to width 2 with a leading zero. -/
def pad2 (i : Int) : String :=
  if 0 ≤ i ∧ i < 10 then "0" ++ intDec i else intDec i

/-- ASCII lower-casing of one character (Python `str.lower` on the ASCII
inputs this code compares against). -/
def lowerChar (c : Char) : Char :=
  if 'A' ≤ c ∧ c ≤ 'Z' then Char.ofNat (c.toNat + 32) else c

/-- Python `s.lower()`. -/
def lowerStr (s : String) : String := ⟨s.data.map lowerChar⟩

/-- The code points CPython strips around a numeric string (the Unicode
`White_Space` set: ASCII whitespace, NEL, NBSP, Ogham space mark, the
2000–200A spaces, line/paragraph separators, narrow NBSP, medium
mathematical space, ideographic space). -/
def pySpace (c : Char) : Bool :=
  let n := c.toNat
  (0x09 ≤ n ∧ n ≤ 0x0D) ∨ n = 0x20 ∨ n = 0x85 ∨
    n = 0xA0 ∨ n = 0x1680 ∨ (0x2000 ≤ n ∧ n ≤ 0x200A) ∨ n = 0x2028 ∨
    n = 0x2029 ∨ n = 0x202F ∨ n = 0x205F ∨ n = 0x3000

/-- First code points of the runs of ten decimal digits of the Unicode
`Nd` category (Unicode 14.0, as shipped with CPython 3.11) — the digits
`int()` and `\d`-based parsing accept, each worth its offset in the
run. -/
def ndBases : List Nat :=
  [0x30, 0x660, 0x6F0, 0x7C0, 0x966, 0x9E6, 0xA66, 0xAE6, 0xB66, 0xBE6,
   0xC66, 0xCE6, 0xD66, 0xDE6, 0xE50, 0xED0, 0xF20, 0x1040, 0x1090, 0x17E0,
   0x1810, 0x1946, 0x19D0, 0x1A80, 0x1A90, 0x1B50, 0x1BB0, 0x1C40, 0x1C50,
   0xA620, 0xA8D0, 0xA900, 0xA9D0, 0xA9F0, 0xAA50, 0xABF0, 0xFF10,
   0x104A0, 0x10D30, 0x11066, 0x110F0, 0x11136, 0x111D0, 0x112F0, 0x11450,
   0x114D0, 0x11650, 0x116C0, 0x11730, 0x118E0, 0x11950, 0x11C50, 0x11D50,
   0x11DA0, 0x16A60, 0x16AC0, 0x16B50, 0x1D7CE, 0x1D7D8, 0x1D7E2,
   0x1D7EC, 0x1D7F6, 0x1E140, 0x1E2F0, 0x1E950, 0x1FBF0]

/-- The decimal value of a Unicode decimal digit
(CPython's `Py_UNICODE_TODECIMAL`), `none` for every other character. -/
def uniDigitVal? (c : Char) : Option Nat :=
  (ndBases.find? (fun b => b ≤ c.toNat ∧ c.toNat < b + 10)).map
    (fun b => c.toNat - b)

/-- Continue a digit group: digits accumulate; a single underscore is
allowed only when a digit follows (CPython's numeric-literal rule). -/
def pyDigitsAux : List Char → Nat → Option Nat
  | [], acc => some acc
  | '_' :: rest, acc =>
    match rest with
    | c :: rest2 =>
      match uniDigitVal? c with
      | some d => pyDigitsAux rest2 (acc * 10 + d)
      | none => none
    | [] => none
  | c :: rest, acc =>
    match uniDigitVal? c with
    | some d => pyDigitsAux rest (acc * 10 + d)
    | none => none

/-- A nonempty digit group: a leading digit, then digits with single
underscores between digits only. -/
def pyDigits : List Char → Option Nat
  | [] => none
  | c :: rest =>
    match uniDigitVal? c with
    | some d => pyDigitsAux rest d
    | none => none

/-- Strip `pySpace` characters from both ends. -/
def stripPy (l : List Char) : List Char :=
  ((l.dropWhile pySpace).reverse.dropWhile pySpace).reverse

/-- Python `int(s)` for a decimal string: optional surrounding
whitespace, then an optional single ASCII sign, then one or more Unicode
decimal digits with single underscores permitted only between digits;
anything else raises `ValueError` (here: `none`). -/
def pyInt? (s : String) : Option Int :=
  match stripPy s.data with
  | '-' :: rest => (pyDigits rest).map (fun n => -(n : Int))
  | '+' :: rest => (pyDigits rest).map (fun n => (n : Int))
  | l => (pyDigits l).map (fun n => (n : Int))

/-- Accumulate a plain digit group (no underscores, as in `strptime`'s
`\d`-based fields). -/
def uniDecDigitsAux : List Char → Nat → Option Nat
  | [], acc => some acc
  | c :: rest, acc =>
    match uniDigitVal? c with
    | some d => uniDecDigitsAux rest (acc * 10 + d)
    | none => none

/-- Value of a nonempty all-digit character list, `none` otherwise. -/
def uniDecDigits : List Char → Option Nat
  | [] => none
  | l => uniDecDigitsAux l 0

/-- Python truthiness of an optional string (`None` and `""` are falsy). -/
def truthy (o : Option String) : Bool :=
  match o with
  | none => false
  | some s => s ≠ ""

/-- Python truthiness of an optional int (`None` and `0` are falsy). -/
def intTruthy (o : Option Int) : Bool :=
  match o with
  | none => false
  | some v => v ≠ 0

/-- `params.get(k, 'false').lower() in ['true', '1', 'yes']`. -/
def flagTrue (o : Option String) : Bool :=
  let v := lowerStr (o.getD "false")
  v = "true" ∨ v = "1" ∨ v = "yes"

/-- Base64 encoding, modelled as an explicitly invertible tagging of the
bytes (the code only ever round-trips it). -/
def b64encode (s : String) : String := "b64:" ++ s

/-- Inverse of `b64encode`. -/
def b64decode (s : String) : String := ⟨s.data.drop 4⟩

/-- Split a character list at every occurrence of `sep`
(Python `s.split('-')` semantics: `n` separators give `n+1` pieces). -/
def splitChar (sep : Char) : List Char → List (List Char)
  | [] => [[]]
  | c :: rest =>
    match splitChar sep rest with
    | [] => if c = sep then [[], []] else [[c]]
    | h :: t => if c = sep then [] :: h :: t else (c :: h) :: t

/-- Gregorian leap year, as `datetime` uses it to validate a day. -/
def isLeap (y : Nat) : Bool :=
  (y % 4 = 0 ∧ y % 100 ≠ 0) ∨ y % 400 = 0

/-- Days in a month (for `datetime`'s day-of-month validation). -/
def daysInMonth (y m : Nat) : Nat :=
  if m = 2 then (if isLeap y then 29 else 28)
  else if m = 4 ∨ m = 6 ∨ m = 9 ∨ m = 11 then 30
  else 31

/-- A calendar date (`datetime.date`). -/
structure DateT where
  y : Int
  m : Int
  d : Int
deriving DecidableEq, Repr

/-- `datetime.strptime(s, "%Y-%m-%d").date()`: exactly four year digits,
one or two month and day digits, and a valid calendar date (year ≥ 1);
`none` models the `ValueError`. -/
def parsePyDate (s : String) : Option DateT :=
  match splitChar '-' s.data with
  | [ys, ms, ds] =>
    match uniDecDigits ys, uniDecDigits ms, uniDecDigits ds with
    | some y, some m, some d =>
      if ys.length = 4 ∧ ms.length ≤ 2 ∧ ds.length ≤ 2 ∧ 1 ≤ y ∧
          1 ≤ m ∧ m ≤ 12 ∧ 1 ≤ d ∧ d ≤ daysInMonth y m then
        some ⟨(y : Int), (m : Int), (d : Int)⟩
      else none
    | _, _, _ => none
  | _ => none

/-- The generator's wall clock and its renderings: `datetime.now().year`,
`.month`, `date.today()`, `strftime('%Y-%m-%d')`, `isoformat()`. -/
structure Now where
  year : Int
  month : Int
  today : DateT
  todayStr : String
  iso : String

/-- `calendar.month_abbr` (index 0 is the empty string). -/
def monthAbbrTable : List String :=
  ["", "Jan", "Feb", "Mar", "Apr", "May", "Jun", "Jul", "Aug", "Sep",
   "Oct", "Nov", "Dec"]

/-- Python list indexing `calendar.month_abbr[i]` with negative-index
wrap-around; `none` models the `IndexError`. -/
def monthAbbr (i : Int) : Option String :=
  if 0 ≤ i ∧ i < 13 then monthAbbrTable.get? i.toNat
  else if -13 ≤ i ∧ i < 0 then monthAbbrTable.get? (i + 13).toNat
  else none

/-- Is `needle` a contiguous sublist of `hay`? -/
def subList (needle : List Char) : List Char → Bool
  | [] => needle.isEmpty
  | c :: rest => needle.isPrefixOf (c :: rest) || subList needle rest

/-! ## Events, responses and the store -/

/-- The query-string dict of an API Gateway event. The handlers read it
only at these fixed keys, so it is embedded as optional fields. -/
structure QueryParams where
  type : Option String := none
  date : Option String := none
  year : Option String := none
  month : Option String := none
  monthly : Option String := none
  remarkable : Option String := none
  psalm_cycle : Option String := none
  nocache : Option String := none
deriving DecidableEq

/-- `event['pathParameters']`. -/
structure PathParams where
  jobId : Option String := none
deriving DecidableEq

/-- An invocation event, as both lambdas receive it.  `job_id` and
`cache_bucket` are the extra fields the router adds for an async
generator invocation (the single bucket is implicit here). -/
structure Event where
  resource : String := ""
  pathParameters : Option PathParams := none
  queryStringParameters : Option QueryParams := none
  job_id : Option String := none
deriving DecidableEq

/-- A JSON scalar appearing in a response body. -/
inductive JVal
  | s (v : String)
  | i (v : Int)
deriving DecidableEq

/-- A response body: a `json.dumps` of a flat dict (field order kept), or
the raw string the code puts in `body` (for PDFs, a base64 string). -/
inductive Body
  | json (fields : List (String × JVal))
  | raw (data : String)
deriving DecidableEq

/-- An API-Gateway-style response dict. -/
structure Response where
  statusCode : Nat
  headers : List (String × String) := []
  body : Body := .json []
  isBase64Encoded : Bool := false
deriving DecidableEq

/-- The `params` dict stored in a job status record by `create_job`. -/
structure JobParams where
  type : String
  year : Int
  month : Int
  remarkable : Bool
  psalm_cycle : Option Int
  cache_key : String
deriving DecidableEq

/-- A `jobs/{id}/status.json` record.  Optional fields model keys a dict
may lack (`update_job_status` can write a record built from `{}`). -/
structure JobStatusData where
  status : String
  created_at : Option String := none
  updated_at : Option String := none
  error : Option String := none
  params : Option JobParams := none
deriving DecidableEq

/-- The S3 bucket, split by the three disjoint key namespaces the code
uses: artifact cache objects (`prayers/...`), job status records
(`jobs/{id}/status.json`) and job results (`jobs/{id}/result.pdf`). -/
structure Store where
  cache : String → Option String
  jobStatus : String → Option JobStatusData
  jobResult : String → Option String

/-- A whole-object overwrite of one cache key. -/
def Store.putCache (st : Store) (key pdf : String) : Store :=
  { st with cache := fun k => if k = key then some pdf else st.cache k }

/-- A whole-object overwrite of one job status record. -/
def Store.putJob (st : Store) (jid : String) (sd : JobStatusData) : Store :=
  { st with jobStatus := fun k => if k = jid then some sd else st.jobStatus k }

/-- A whole-object overwrite of one job result. -/
def Store.putResult (st : Store) (jid pdf : String) : Store :=
  { st with jobResult := fun k => if k = jid then some pdf else st.jobResult k }

/-- One observable external call (S3 access attempts and Lambda
invocations), plus the pure cache-key derivation, recorded so that "no
store access before X" claims are statable.  Put effects record the
*attempt*; whether it succeeded is the environment's flag. -/
inductive Effect
  | deriveKey (key : String)
  | cacheGet (key : String)
  | cachePut (key : String)
  | jobStatusGet (id : String)
  | jobStatusPut (id : String)
  | jobResultGet (id : String)
  | jobResultPut (id : String)
  | invokeSync
  | invokeAsync (id : String)
deriving DecidableEq

/-- Shared JSON response headers. -/
def jsonHeaders : List (String × String) :=
  [("Content-Type", "application/json"), ("Access-Control-Allow-Origin", "*")]

/-- A 400 response with an `error` JSON body. -/
def resp400 (msg : String) : Response :=
  { statusCode := 400, headers := jsonHeaders, body := .json [("error", .s msg)] }

/-- The 500 response of the broad `except` handlers
(`{'error': 'Internal server error', 'message': str(e)}`). -/
def resp500 (msg : String) : Response :=
  { statusCode := 500, headers := jsonHeaders,
    body := .json [("error", .s "Internal server error"), ("message", .s msg)] }

/-- PDF response headers with a `Content-Disposition` filename. -/
def pdfHeaders (filename : String) : List (String × String) :=
  [("Content-Type", "application/pdf"),
   ("Content-Disposition", "inline; filename=\"" ++ filename ++ "\""),
   ("Access-Control-Allow-Origin", "*")]

/-- `prayer_date.strftime('%Y-%m-%d')`. -/
def dateStrftime (d : DateT) : String :=
  intDec d.y ++ "-" ++ pad2 d.m ++ "-" ++ pad2 d.d

/-- A 200 PDF response (base64-encoded body). -/
def pdfResp (filename pdf : String) : Response :=
  { statusCode := 200, headers := pdfHeaders filename,
    body := .raw (b64encode pdf), isBase64Encoded := true }

/-! ## Generator lambda (`src/aws/lambda_generator/handler.py`) -/

/-- The generator's environment: its clock, the PDF generation pipelines
(`PrayerService` / `MonthlyPrayerGenerator`, external collaborators whose
outcome is an oracle: the produced bytes, or the exception message), and
success flags for the S3 put calls whose exceptions the code swallows. -/
structure GenEnv where
  now : Now
  genDaily : String → DateT → String → Except String String
  genMonthly : String → Int → Int → String → Option Int → Except String String
  resultPutOk : Bool := true
  genCachePutOk : Bool := true
  statusPutOk : Bool := true

/-- Outcome of one generator invocation. -/
structure GenOutcome where
  response : Response
  store : Store
  effects : List Effect

/-- `update_job_status`: read the existing record to preserve its fields
(a failed read yields `{}`), set `status`/`updated_at` (and `error` when
truthy), and put it back; a failed put is swallowed. -/
def update_job_status (env : GenEnv) (st : Store) (jid status : String)
    (error : Option String) : Store × List Effect :=
  let prev := (st.jobStatus jid).getD { status := "" }
  let nd0 : JobStatusData :=
    { prev with status := status, updated_at := some env.now.iso }
  let nd :=
    match error with
    | some e => if e ≠ "" then { nd0 with error := some e } else nd0
    | none => nd0
  if env.statusPutOk then
    (st.putJob jid nd, [.jobStatusGet jid, .jobStatusPut jid])
  else (st, [.jobStatusGet jid, .jobStatusPut jid])

/-- `store_job_result`: put the PDF at `jobs/{id}/result.pdf`, then (when
a truthy cache key is known) also at the cache key.  Both puts share one
`try`: if the first raises the second is not attempted, and either
exception is swallowed. -/
def store_job_result (env : GenEnv) (st : Store) (jid pdf : String)
    (cache_key : Option String) : Store × List Effect :=
  if env.resultPutOk then
    let st1 := st.putResult jid pdf
    match cache_key with
    | some ck =>
      if ck ≠ "" then
        if env.genCachePutOk then
          (st1.putCache ck pdf, [.jobResultPut jid, .cachePut ck])
        else (st1, [.jobResultPut jid, .cachePut ck])
      else (st1, [.jobResultPut jid])
    | none => (st1, [.jobResultPut jid])
  else (st, [.jobResultPut jid])

/-- `parse_date`: today when the string is falsy, else strict
`YYYY-MM-DD` (`none` models the `ValueError`). -/
def parse_date (now : Now) (date_string : Option String) : Option DateT :=
  if truthy date_string then parsePyDate (date_string.getD "")
  else some now.today

/-- The generator's monthly-parameter extraction: year (default
`date.today().year`, else `int(...)` or 400), month (default today's,
else `int(...)` in 1–12 or 400), psalm cycle (absent, or `int(...)` in
{30, 60} or 400). -/
def genMonthlyFields (now : Now) (params : QueryParams) :
    Except Response (Int × Int × Option Int) :=
  let yearR : Except Response Int :=
    if truthy params.year then
      match pyInt? (params.year.getD "") with
      | some y => .ok y
      | none => .error (resp400 "Invalid year format. Expected YYYY")
    else .ok now.today.y
  match yearR with
  | .error r => .error r
  | .ok y =>
    let monthR : Except Response Int :=
      if truthy params.month then
        match pyInt? (params.month.getD "") with
        | some m =>
          if 1 ≤ m ∧ m ≤ 12 then .ok m
          else .error (resp400 "Invalid month. Must be 1-12")
        | none => .error (resp400 "Invalid month. Must be 1-12")
      else .ok now.today.m
    match monthR with
    | .error r => .error r
    | .ok m =>
      if truthy params.psalm_cycle then
        match pyInt? (params.psalm_cycle.getD "") with
        | some c =>
          if c = 30 ∨ c = 60 then .ok (y, m, some c)
          else .error (resp400 "Invalid psalm_cycle. Must be 30 or 60")
        | none => .error (resp400 "Invalid psalm_cycle. Must be 30 or 60")
      else .ok (y, m, none)

/-- The cache key recorded in a job's status record, as the async
completion path reads it back (`job_status.get('params', {}).get('cache_key')`,
`None` on a missing record, missing params, or a failed read). -/
def jobTargetKey (st : Store) (jid : String) : Option String :=
  match st.jobStatus jid with
  | some sd => sd.params.map (fun p => p.cache_key)
  | none => none

/-- The generator lambda handler.  An event carrying a `job_id` is an
async job: on monthly success it stores the result (and the target cache
key read from the job record) and then marks the job completed; on an
exception (`ValueError` from the date, or a generation failure) it marks
the job failed.  Validation-failure 400s return directly, without
touching the job record. -/
def generatorHandler (env : GenEnv) (st : Store) (event : Event) : GenOutcome :=
  let jid := (event.job_id).getD ""
  let is_async := event.job_id.isSome
  let params := event.queryStringParameters.getD {}
  let prayer_type := lowerStr (params.type.getD "")
  if prayer_type = "morning" ∨ prayer_type = "evening" ∨
      prayer_type = "midday" ∨ prayer_type = "compline" then
    let is_monthly := flagTrue params.monthly
    let remarkable := flagTrue params.remarkable
    let page_size := if remarkable then "remarkable" else "letter"
    if is_monthly then
      match genMonthlyFields env.now params with
      | .error r => { response := r, store := st, effects := [] }
      | .ok (y, m, cyc) =>
        match env.genMonthly prayer_type y m page_size cyc with
        | .error e =>
          if is_async then
            let se := update_job_status env st jid "failed" (some e)
            { response := resp500 e, store := se.1, effects := se.2 }
          else { response := resp500 e, store := st, effects := [] }
        | .ok pdf =>
          if is_async then
            let se1 := store_job_result env st jid pdf (jobTargetKey st jid)
            let se2 := update_job_status env se1.1 jid "completed" none
            { response :=
                { statusCode := 200,
                  body := .json [("status", .s "completed"), ("job_id", .s jid)] },
              store := se2.1,
              effects := [.jobStatusGet jid] ++ se1.2 ++ se2.2 }
          else
            match monthAbbr m with
            | some ab =>
              let filename :=
                prayer_type ++ "_prayer_monthly_" ++ ab ++ "_" ++ intDec y ++ ".pdf"
              { response := pdfResp filename pdf, store := st, effects := [] }
            | none => { response := resp500 "list index out of range", store := st, effects := [] }
    else
      match parse_date env.now params.date with
      | none =>
        let msg := "Invalid date format: " ++ params.date.getD "" ++ ". Expected YYYY-MM-DD"
        if is_async then
          let se := update_job_status env st jid "failed" (some msg)
          { response := resp400 msg, store := se.1, effects := se.2 }
        else { response := resp400 msg, store := st, effects := [] }
      | some prayer_date =>
        match env.genDaily prayer_type prayer_date page_size with
        | .error e =>
          if is_async then
            let se := update_job_status env st jid "failed" (some e)
            { response := resp500 e, store := se.1, effects := se.2 }
          else { response := resp500 e, store := st, effects := [] }
        | .ok pdf =>
          let filename :=
            prayer_type ++ "_prayer_" ++ dateStrftime prayer_date ++ ".pdf"
          { response := pdfResp filename pdf, store := st, effects := [] }
  else
    { response := resp400
        "Invalid or missing prayer type. Must be one of: morning, evening, midday, compline",
      store := st, effects := [] }

/-! ## Router lambda (`src/aws/lambda_router/handler.py`) -/

/-- `generate_cache_key`.  Falsy (`None`/`0`/`""`) dimensions fall back
to the clock; the cycle token appears only on the monthly shape (with a
`default` marker when the cycle is falsy), and the daily shape carries no
cycle token at all. -/
def generate_cache_key (now : Now) (prayer_type : String)
    (date_string : Option String) (remarkable is_monthly : Bool)
    (year month psalm_cycle : Option Int) : String :=
  let page_size := if remarkable then "remarkable" else "letter"
  if is_monthly then
    let y := if intTruthy year then year.getD 0 else now.year
    let m := if intTruthy month then month.getD 0 else now.month
    if intTruthy psalm_cycle then
      "prayers/monthly/" ++ prayer_type ++ "/" ++ intDec y ++ "/" ++ pad2 m ++
        "/" ++ page_size ++ "/cycle" ++ intDec (psalm_cycle.getD 0) ++ ".pdf"
    else
      "prayers/monthly/" ++ prayer_type ++ "/" ++ intDec y ++ "/" ++ pad2 m ++
        "/" ++ page_size ++ "/default.pdf"
  else
    let ds := if truthy date_string then date_string.getD "" else now.todayStr
    "prayers/daily/" ++ prayer_type ++ "/" ++ ds ++ "/" ++ page_size ++ ".pdf"

/-- The router's view of a request after its validation block: the local
variables `prayer_type`, `date_string`, `remarkable`, `bypass_cache`,
`is_monthly`, `year`, `month`, `psalm_cycle` at line 476 of the source
(`year`/`month`/`psalm_cycle` stay `None` for non-monthly requests). -/
structure ParsedReq where
  prayer_type : String
  date_string : Option String
  remarkable : Bool
  bypass_cache : Bool
  is_monthly : Bool
  year : Option Int
  month : Option Int
  psalm_cycle : Option Int
deriving DecidableEq

/-- The router's year field (source lines 429–442): today's year when
absent, else `int(...)` or 400 — note that no range check happens. -/
def routerYearField (now : Now) (params : QueryParams) : Except Response Int :=
  if truthy params.year then
    match pyInt? (params.year.getD "") with
    | some y => .ok y
    | none => .error (resp400 "Invalid year format. Expected YYYY")
  else .ok now.year

/-- The router's month field (source lines 444–459): today's month when
absent, else `int(...)` in 1–12 or 400. -/
def routerMonthField (now : Now) (params : QueryParams) : Except Response Int :=
  if truthy params.month then
    match pyInt? (params.month.getD "") with
    | some m =>
      if 1 ≤ m ∧ m ≤ 12 then .ok m
      else .error (resp400 "Invalid month. Must be 1-12")
    | none => .error (resp400 "Invalid month. Must be 1-12")
  else .ok now.month

/-- The router's psalm-cycle field (source lines 461–474): `None` when
absent, else `int(...)` in {30, 60} or 400. -/
def routerCycField (params : QueryParams) : Except Response (Option Int) :=
  if truthy params.psalm_cycle then
    match pyInt? (params.psalm_cycle.getD "") with
    | some c =>
      if c = 30 ∨ c = 60 then .ok (some c)
      else .error (resp400 "Invalid psalm_cycle. Must be 30 or 60")
    | none => .error (resp400 "Invalid psalm_cycle. Must be 30 or 60")
  else .ok none

/-- The router's validation/canonicalization block (source lines
399–474): prayer type against the four-member set, then — only when the
monthly flag is set — year, month and psalm cycle.  The `date` parameter
is read but never validated here. -/
def routerValidate (now : Now) (params : QueryParams) :
    Except Response ParsedReq :=
  let prayer_type := lowerStr (params.type.getD "")
  let remarkable := flagTrue params.remarkable
  let bypass := flagTrue params.nocache
  let is_monthly := flagTrue params.monthly
  if prayer_type = "morning" ∨ prayer_type = "evening" ∨
      prayer_type = "midday" ∨ prayer_type = "compline" then
    if is_monthly then
      match routerYearField now params with
      | .error r => .error r
      | .ok y =>
        match routerMonthField now params with
        | .error r => .error r
        | .ok m =>
          match routerCycField params with
          | .error r => .error r
          | .ok cyc =>
            .ok { prayer_type := prayer_type, date_string := params.date,
                  remarkable := remarkable, bypass_cache := bypass,
                  is_monthly := true, year := some y, month := some m,
                  psalm_cycle := cyc }
    else
      .ok { prayer_type := prayer_type, date_string := params.date,
            remarkable := remarkable, bypass_cache := bypass,
            is_monthly := false, year := none, month := none,
            psalm_cycle := none }
  else
    .error (resp400
      "Invalid or missing prayer type. Must be one of: morning, evening, midday, compline")

/-- The router's environment: its clock, the `uuid.uuid4()` draw, the
generator's environment (for the sync `RequestResponse` invocation), and
success flags for `store_in_cache` (swallowed) and for `create_job` /
`invoke_generator_async` (both re-raise into the outer 500 handler). -/
structure Env where
  now : Now
  uuid : String
  genv : GenEnv
  cachePutOk : Bool := true
  jobCreateOk : Bool := true
  asyncInvokeOk : Bool := true

/-- Outcome of one router invocation. -/
structure RouterOutcome where
  response : Response
  store : Store
  effects : List Effect

/-- `store_in_cache`: a best-effort put; a failure is logged and
swallowed ("Don't fail the request if caching fails"). -/
def store_in_cache (env : Env) (st : Store) (key pdf : String) :
    Store × List Effect :=
  if env.cachePutOk then (st.putCache key pdf, [.cachePut key])
  else (st, [.cachePut key])

/-- The resource path of job status requests
(`/job/{jobId}` with literal braces). -/
def jobResource : String := "/job/\x7bjobId\x7d"

/-- The string the generator response's `body` contributes to
`base64.b64decode` (the 200 responses decoded here always carry a raw
base64 body; a JSON body never reaches this point). -/
def bodyStr : Body → String
  | .raw s => s
  | .json _ => ""

/-- The filename of the poller's 200 response, assembled from the job's
recorded params with the poller's own defaults; `none` models the
`IndexError` of `calendar.month_abbr[int(month)]` on an out-of-range
month. -/
def pollerFilename (now : Now) (sd : JobStatusData) : Option String :=
  let ptype := match sd.params with | some p => p.type | none => "prayer"
  let year := match sd.params with | some p => p.year | none => now.year
  let month := match sd.params with | some p => p.month | none => now.month
  (monthAbbr month).map (fun ab =>
    ptype ++ "_prayer_monthly_" ++ ab ++ "_" ++ intDec year ++ ".pdf")

/-- `handle_job_status_request`: 400 for a falsy job id; else one job
registry read, then 404 (no record), 200 with the result PDF (completed,
result present — the filename indexes `calendar.month_abbr` with the
recorded month, a 500 `IndexError` if that month is out of range), 500
(completed, result missing), 500 with the captured error (failed), or
202 (anything else).  Read-only. -/
def handle_job_status_request (now : Now) (st : Store) (event : Event) :
    Response × List Effect :=
  let pp := (event.pathParameters).getD {}
  if truthy pp.jobId then
    let jid := pp.jobId.getD ""
    match st.jobStatus jid with
    | none =>
      ({ statusCode := 404, headers := jsonHeaders,
         body := .json [("error", .s "Job not found")] }, [.jobStatusGet jid])
    | some sd =>
      if sd.status = "completed" then
        match st.jobResult jid with
        | some pdf =>
          match pollerFilename now sd with
          | some filename =>
            (pdfResp filename pdf, [.jobStatusGet jid, .jobResultGet jid])
          | none =>
            (resp500 "list index out of range", [.jobStatusGet jid, .jobResultGet jid])
        | none =>
          ({ statusCode := 500, headers := jsonHeaders,
             body := .json [("error", .s "Job completed but result not found")] },
           [.jobStatusGet jid, .jobResultGet jid])
      else if sd.status = "failed" then
        ({ statusCode := 500, headers := jsonHeaders,
           body := .json [("status", .s "failed"),
                          ("error", .s (sd.error.getD "Unknown error"))] },
         [.jobStatusGet jid])
      else
        ({ statusCode := 202, headers := jsonHeaders,
           body := .json [("status", .s "pending"), ("job_id", .s jid),
                          ("message", .s "Job is still processing")] },
         [.jobStatusGet jid])
  else
    ({ statusCode := 400, headers := jsonHeaders,
       body := .json [("error", .s "Missing job ID")] }, [])

/-- The filename for the router's own PDF responses (source lines
549–554); `none` models the `IndexError` of `calendar.month_abbr[month]`
for a month outside the list. -/
def routerFilename (now : Now) (p : ParsedReq) : Option String :=
  if p.is_monthly then
    (monthAbbr (p.month.getD 0)).map (fun ab =>
      p.prayer_type ++ "_prayer_monthly_" ++ ab ++ "_" ++
        intDec (p.year.getD 0) ++ ".pdf")
  else
    let ds := if truthy p.date_string then p.date_string.getD "" else now.todayStr
    some (p.prayer_type ++ "_prayer_" ++ ds ++ ".pdf")

/-- The `job_params` dict the router assembles for a monthly job. -/
def jobParamsOf (p : ParsedReq) (key : String) : JobParams :=
  { type := p.prayer_type, year := p.year.getD 0, month := p.month.getD 0,
    remarkable := p.remarkable, psalm_cycle := p.psalm_cycle, cache_key := key }

/-- The job status record `create_job` writes: status pending, the
creation time, and the originating parameters with the target cache
key. -/
def pendingJob (now : Now) (p : ParsedReq) (key : String) : JobStatusData :=
  { status := "pending", created_at := some now.iso,
    params := some (jobParamsOf p key) }

/-- The router's PDF response with the `X-Cache` header. -/
def routerPdfResp (filename pdfB64 : String) (hit : Bool) : Response :=
  { statusCode := 200,
    headers := pdfHeaders filename ++ [("X-Cache", if hit then "HIT" else "MISS")],
    body := .raw pdfB64, isBase64Encoded := true }

/-- The router lambda handler: job status requests go to the poller;
otherwise validate, derive the cache key, consult the cache unless
bypassed, return a hit directly, and on a miss either create a pending
job and fire the generator asynchronously (monthly) or invoke it
synchronously, best-effort cache the result, and return it. -/
def lambda_handler (env : Env) (st : Store) (event : Event) : RouterOutcome :=
  if event.resource = jobResource then
    let re := handle_job_status_request env.now st event
    { response := re.1, store := st, effects := re.2 }
  else
    let params := event.queryStringParameters.getD {}
    match routerValidate env.now params with
    | .error r => { response := r, store := st, effects := [] }
    | .ok p =>
      let key := generate_cache_key env.now p.prayer_type p.date_string
        p.remarkable p.is_monthly p.year p.month p.psalm_cycle
      let ef0 : List Effect := [.deriveKey key]
      let cached : Option String × List Effect :=
        if p.bypass_cache then (none, []) else (st.cache key, [.cacheGet key])
      match cached.1 with
      | some pdf =>
        match routerFilename env.now p with
        | some fn =>
          { response := routerPdfResp fn (b64encode pdf) true,
            store := st, effects := ef0 ++ cached.2 }
        | none =>
          { response := resp500 "list index out of range",
            store := st, effects := ef0 ++ cached.2 }
      | none =>
        if p.is_monthly then
          let jid := env.uuid
          if env.jobCreateOk then
            let st1 := st.putJob jid (pendingJob env.now p key)
            if env.asyncInvokeOk then
              { response :=
                  { statusCode := 202, headers := jsonHeaders,
                    body := .json [("status", .s "pending"), ("job_id", .s jid),
                      ("message", .s "Monthly PDF generation started. Poll /job/\x7bjob_id\x7d for status.")] },
                store := st1,
                effects := ef0 ++ cached.2 ++ [.jobStatusPut jid, .invokeAsync jid] }
            else
              { response := resp500 "async invoke failed", store := st1,
                effects := ef0 ++ cached.2 ++ [.jobStatusPut jid, .invokeAsync jid] }
          else
            { response := resp500 "create job failed", store := st,
              effects := ef0 ++ cached.2 ++ [.jobStatusPut jid] }
        else
          let gout := generatorHandler env.genv st event
          if gout.response.statusCode ≠ 200 then
            { response := gout.response, store := gout.store,
              effects := ef0 ++ cached.2 ++ [.invokeSync] ++ gout.effects }
          else
            let pdf := b64decode (bodyStr gout.response.body)
            let se := store_in_cache env gout.store key pdf
            match routerFilename env.now p with
            | some fn =>
              { response := routerPdfResp fn (b64encode pdf) false,
                store := se.1,
                effects := ef0 ++ cached.2 ++ [.invokeSync] ++ gout.effects ++ se.2 }
            | none =>
              { response := resp500 "list index out of range", store := se.1,
                effects := ef0 ++ cached.2 ++ [.invokeSync] ++ gout.effects ++ se.2 }

/-! ## Canonical request descriptors (the spec's data model, §3),
mapped onto `generate_cache_key`'s arguments exactly as the dispatcher
supplies them. -/

/-- The four supported prayer kinds. -/
inductive PrayerType
  | morning
  | evening
  | midday
  | compline
deriving DecidableEq

/-- The kind's query-string spelling. -/
def PrayerType.str : PrayerType → String
  | .morning => "morning"
  | .evening => "evening"
  | .midday => "midday"
  | .compline => "compline"

/-- The request's temporal scope: one day, or a whole month. -/
inductive Scope
  | singleDay (date : DateT)
  | monthRange (year month : Int)
deriving DecidableEq

/-- A validated, canonicalized request (spec §3 `RequestDescriptor`,
without the `bypassCache` dispatch flag, which never reaches
`generate_cache_key`). -/
structure Descriptor where
  kind : PrayerType
  scope : Scope
  remarkable : Bool
  cycle : Option Int
deriving DecidableEq

/-- `deriveKey`: `generate_cache_key` applied to a descriptor exactly as
the dispatcher applies it (a `SingleDay` date is passed as its ISO
string; `year`/`month` are passed only for `MonthRange`). -/
def deriveKey (now : Now) (d : Descriptor) : String :=
  match d.scope with
  | .singleDay dt =>
    generate_cache_key now d.kind.str (some (dateStrftime dt)) d.remarkable
      false none none d.cycle
  | .monthRange y m =>
    generate_cache_key now d.kind.str none d.remarkable true (some y) (some m)
      d.cycle

/-- A calendar-plausible date (what the router's validated inputs and a
real clock supply: nonnegative year, month 1–12, day 1–31). -/
def DateT.validB (dt : DateT) : Bool :=
  decide (0 ≤ dt.y) && decide (1 ≤ dt.m) && decide (dt.m ≤ 12) &&
    decide (1 ≤ dt.d) && decide (dt.d ≤ 31)

/-- A canonical descriptor: every dimension carries a value the code
treats as present — a valid date for `SingleDay`; a positive year and a
1–12 month for `MonthRange`; a cycle that is absent or in the closed set
{30, 60}. -/
def Descriptor.canonicalB (d : Descriptor) : Bool :=
  (match d.scope with
   | .singleDay dt => dt.validB
   | .monthRange y m => decide (1 ≤ y) && decide (1 ≤ m) && decide (m ≤ 12)) &&
  (d.cycle == none || d.cycle == some 30 || d.cycle == some 60)

/-- Propositional form of `canonicalB`. -/
def Descriptor.Canonical (d : Descriptor) : Prop := d.canonicalB = true

/-! ## Field-validity predicates (the shapes `routerValidate` rejects) -/

/-- The prayer type parses to one of the four supported kinds. -/
def validTypeB (qp : QueryParams) : Bool :=
  let t := lowerStr (qp.type.getD "")
  t == "morning" || t == "evening" || t == "midday" || t == "compline"

/-- A present-but-unparsable year. -/
def badYearB (qp : QueryParams) : Bool :=
  truthy qp.year && (pyInt? (qp.year.getD "")).isNone

/-- A present month that does not parse to an int in 1–12. -/
def badMonthB (qp : QueryParams) : Bool :=
  truthy qp.month &&
    (match pyInt? (qp.month.getD "") with
     | some m => !(decide (1 ≤ m) && decide (m ≤ 12))
     | none => true)

/-- A present psalm cycle that does not parse to 30 or 60. -/
def badCycleB (qp : QueryParams) : Bool :=
  truthy qp.psalm_cycle &&
    (match pyInt? (qp.psalm_cycle.getD "") with
     | some c => !(c == 30 || c == 60)
     | none => true)

/-! ## Concrete fixtures (for counterexamples and witnesses) -/

/-- A concrete clock. -/
def now0 : Now :=
  { year := 2025, month := 11, today := ⟨2025, 11, 8⟩,
    todayStr := "2025-11-08", iso := "2025-11-08T00:00:00" }

/-- A second clock, differing from `now0` in every field. -/
def nowAlt : Now :=
  { year := 2031, month := 4, today := ⟨2031, 4, 2⟩,
    todayStr := "2031-04-02", iso := "2031-04-02T09:30:00" }

/-- A generator environment whose pipelines always succeed. -/
def genv0 : GenEnv :=
  { now := now0, genDaily := fun _ _ _ => .ok "DPDF",
    genMonthly := fun _ _ _ _ _ => .ok "MPDF" }

/-- A router environment over `genv0`. -/
def env0 : Env := { now := now0, uuid := "j1", genv := genv0 }

/-- The empty bucket. -/
def st0 : Store :=
  { cache := fun _ => none, jobStatus := fun _ => none, jobResult := fun _ => none }

/-- A valid daily request. -/
def evDaily : Event :=
  { queryStringParameters := some { type := some "morning", date := some "2025-11-08" } }

/-- A daily request with a malformed date. -/
def evBadDate : Event :=
  { queryStringParameters := some { type := some "morning", date := some "not-a-date" } }

/-- A valid monthly request. -/
def evMonthly : Event :=
  { queryStringParameters := some
      { type := some "evening", monthly := some "true",
        year := some "2025", month := some "12" } }

/-- A job-status request. -/
def evJob (j : Option String) : Event :=
  { resource := jobResource, pathParameters := some { jobId := j } }

/-- The state after the router accepted `evMonthly` on the empty bucket
(a pending job `j1` exists). -/
def stAfterAccept : Store := (lambda_handler env0 st0 evMonthly).store

/-- The async generator event for job `j1` (the router adds `job_id`). -/
def evAsync : Event := { evMonthly with job_id := some "j1" }

/-- `genv0` with the S3 put of the job result failing. -/
def genvResultPutFail : GenEnv := { genv0 with resultPutOk := false }

/-- `env0` with the cache write failing. -/
def envPutFail : Env := { env0 with cachePutOk := false }

/-- A canonical single-day descriptor with cycle 30. -/
def dDay30 : Descriptor :=
  { kind := .morning, scope := .singleDay ⟨2025, 11, 8⟩,
    remarkable := false, cycle := some 30 }

/-- `dDay30` with cycle 60 instead. -/
def dDay60 : Descriptor := { dDay30 with cycle := some 60 }

/-- A canonical monthly descriptor. -/
def dMon60 : Descriptor :=
  { kind := .evening, scope := .monthRange 2025 12, remarkable := false,
    cycle := some 60 }

/-! # Theorems -/

/-- A string built with a nonempty right part is nonempty. -/
theorem append_dash_ne_empty (a b : String) : a ++ "-" ++ b ≠ "" := by
  intro h
  have hl := congrArg String.length h
  rw [String.length_append, String.length_append] at hl
  have : ("-" : String).length = 1 := rfl
  have : ("" : String).length = 0 := rfl
  omega

/-- An ISO-rendered date is never the empty string (so Python treats it
as truthy). -/
theorem dateStrftime_ne_empty (dt : DateT) : dateStrftime dt ≠ "" := by
  have h := append_dash_ne_empty (intDec dt.y) (pad2 dt.m ++ "-" ++ pad2 dt.d)
  intro hc
  apply h
  rw [← hc]
  simp [dateStrftime, String.append_assoc]

/-- C8 helper: a truthy year, month and date make `generate_cache_key`
read no clock. -/
theorem generate_cache_key_clock_free (n1 n2 : Now) (ptype : String)
    (ds : Option String) (rem mon : Bool) (yr mo cyc : Option Int)
    (hc : if mon then intTruthy yr = true ∧ intTruthy mo = true
          else truthy ds = true) :
    generate_cache_key n1 ptype ds rem mon yr mo cyc =
      generate_cache_key n2 ptype ds rem mon yr mo cyc := by
  cases mon with
  | true =>
    obtain ⟨hy, hm⟩ := hc
    simp [generate_cache_key, hy, hm]
  | false =>
    simp at hc
    simp [generate_cache_key, hc]

/-- C8: for every canonical descriptor (every optional dimension carries
a value the code treats as present: a nonempty date, a nonzero year and
month, a cycle in the closed set or absent), `deriveKey` is a pure
function of the descriptor: its value is identical under any two clocks,
hence across repeated calls and process restarts. -/
theorem deriveKey_deterministic (d : Descriptor) (hd : d.Canonical)
    (n1 n2 : Now) : deriveKey n1 d = deriveKey n2 d := by
  obtain ⟨k, sc, rem, cyc⟩ := d
  cases sc with
  | singleDay dt =>
    simp only [deriveKey]
    apply generate_cache_key_clock_free
    simp [truthy, dateStrftime_ne_empty dt]
  | monthRange y m =>
    simp only [deriveKey]
    apply generate_cache_key_clock_free
    simp only [Descriptor.Canonical, Descriptor.canonicalB, Bool.and_eq_true,
      decide_eq_true_eq] at hd
    refine ⟨?_, ?_⟩
    · simp only [intTruthy, ne_eq, decide_eq_true_eq]
      omega
    · simp only [intTruthy, ne_eq, decide_eq_true_eq]
      omega

/-- C8 witness: `deriveKey` on a concrete canonical monthly descriptor
under two fully different clocks. -/
theorem deriveKey_deterministic_witness :
    deriveKey now0
        { kind := .evening, scope := .monthRange 2025 12,
          remarkable := false, cycle := some 60 } =
      deriveKey nowAlt
        { kind := .evening, scope := .monthRange 2025 12,
          remarkable := false, cycle := some 60 } :=
  deriveKey_deterministic _ (by exact rfl) now0 nowAlt

/-- C10: a job-status request whose path carries no `jobId` is answered
400 with a missing-job-id error — a fifth outcome, distinct from the 404
a present-but-unknown id gets. -/
theorem job_status_missing_id_400 (env : Env) (st : Store)
    (pp : Option PathParams) (uid : String)
    (hno : (pp.getD {}).jobId = none)
    (huid : uid ≠ "") (hunknown : st.jobStatus uid = none) :
    ((lambda_handler env st
        { resource := jobResource, pathParameters := pp }).response.statusCode = 400 ∧
      (lambda_handler env st
        { resource := jobResource, pathParameters := pp }).response.body =
        .json [("error", .s "Missing job ID")]) ∧
    ((lambda_handler env st (evJob (some uid))).response.statusCode = 404 ∧
      (lambda_handler env st (evJob (some uid))).response.body =
        .json [("error", .s "Job not found")]) := by
  constructor
  · simp [lambda_handler, handle_job_status_request, hno, truthy]
  · simp [lambda_handler, evJob, handle_job_status_request, truthy, huid, hunknown, jobResource]

/-- C10 witness: the concrete empty-path and unknown-id requests. -/
theorem job_status_missing_id_400_witness :
    ((lambda_handler env0 st0
        { resource := jobResource, pathParameters := none }).response.statusCode = 400 ∧
      (lambda_handler env0 st0
        { resource := jobResource, pathParameters := none }).response.body =
        .json [("error", .s "Missing job ID")]) ∧
    ((lambda_handler env0 st0 (evJob (some "zzz"))).response.statusCode = 404 ∧
      (lambda_handler env0 st0 (evJob (some "zzz"))).response.body =
        .json [("error", .s "Job not found")]) :=
  job_status_missing_id_400 env0 st0 none "zzz" rfl (by decide) rfl

/-- The base64 tagging round-trips, as the router's
decode-then-re-encode of the generator body relies on. -/
theorem b64_roundtrip (s : String) : b64decode (b64encode s) = s := by
  cases s
  rfl

/-- C6: on the synchronous path, when the generator has succeeded, a
failing cache write is swallowed: the response is still 200 with the
freshly generated artifact (and `X-Cache: MISS`), the write having been
attempted but the cache left unchanged. -/
theorem cache_put_failure_still_200 (env : Env) (st : Store) (ev : Event)
    (p : ParsedReq) (gfn gpdf : String)
    (hres : ev.resource ≠ jobResource)
    (hval : routerValidate env.now (ev.queryStringParameters.getD {}) = .ok p)
    (hm : p.is_monthly = false)
    (hmiss : p.bypass_cache = true ∨
      st.cache (generate_cache_key env.now p.prayer_type p.date_string
        p.remarkable p.is_monthly p.year p.month p.psalm_cycle) = none)
    (hput : env.cachePutOk = false)
    (hgen : generatorHandler env.genv st ev =
      { response := pdfResp gfn gpdf, store := st, effects := [] }) :
    (lambda_handler env st ev).response.statusCode = 200 ∧
    (lambda_handler env st ev).response.body = .raw (b64encode gpdf) ∧
    ("X-Cache", "MISS") ∈ (lambda_handler env st ev).response.headers ∧
    (lambda_handler env st ev).store.cache = st.cache ∧
    .cachePut (generate_cache_key env.now p.prayer_type p.date_string
        p.remarkable p.is_monthly p.year p.month p.psalm_cycle) ∈
      (lambda_handler env st ev).effects := by
  have hfn : routerFilename env.now p =
      some (p.prayer_type ++ "_prayer_" ++
        (if truthy p.date_string then p.date_string.getD "" else env.now.todayStr) ++
        ".pdf") := by
    simp only [routerFilename, hm, Bool.false_eq_true, if_false]
  cases hbp : p.bypass_cache with
  | true =>
    have hout : lambda_handler env st ev =
        { response := routerPdfResp (p.prayer_type ++ "_prayer_" ++
            (if truthy p.date_string then p.date_string.getD "" else env.now.todayStr) ++
            ".pdf") (b64encode gpdf) false,
          store := st,
          effects :=
            [.deriveKey (generate_cache_key env.now p.prayer_type p.date_string
                p.remarkable p.is_monthly p.year p.month p.psalm_cycle),
             .invokeSync,
             .cachePut (generate_cache_key env.now p.prayer_type p.date_string
                p.remarkable p.is_monthly p.year p.month p.psalm_cycle)] } := by
      simp only [lambda_handler, if_neg hres, hval, hm, hbp, Bool.false_eq_true,
        if_false, if_true, hgen, pdfResp, store_in_cache, hput, hfn, bodyStr,
        b64_roundtrip]
      rfl
    rw [hout]
    refine ⟨rfl, rfl, ?_, rfl, ?_⟩
    · simp [routerPdfResp]
    · simp
  | false =>
    have hmiss' : st.cache (generate_cache_key env.now p.prayer_type p.date_string
        p.remarkable false p.year p.month p.psalm_cycle) = none := by
      rcases hmiss with h | h
      · rw [hbp] at h; simp at h
      · rw [hm] at h; exact h
    have hout : lambda_handler env st ev =
        { response := routerPdfResp (p.prayer_type ++ "_prayer_" ++
            (if truthy p.date_string then p.date_string.getD "" else env.now.todayStr) ++
            ".pdf") (b64encode gpdf) false,
          store := st,
          effects :=
            [.deriveKey (generate_cache_key env.now p.prayer_type p.date_string
                p.remarkable p.is_monthly p.year p.month p.psalm_cycle),
             .cacheGet (generate_cache_key env.now p.prayer_type p.date_string
                p.remarkable p.is_monthly p.year p.month p.psalm_cycle),
             .invokeSync,
             .cachePut (generate_cache_key env.now p.prayer_type p.date_string
                p.remarkable p.is_monthly p.year p.month p.psalm_cycle)] } := by
      simp only [lambda_handler, if_neg hres, hval, hm, hbp, hmiss',
        Bool.false_eq_true, if_false, if_true, hgen, pdfResp, store_in_cache,
        hput, hfn, bodyStr, b64_roundtrip]
      rfl
    rw [hout]
    refine ⟨rfl, rfl, ?_, rfl, ?_⟩
    · simp [routerPdfResp]
    · simp

/-- C6 witness: a concrete daily miss with the cache write failing still
returns 200 with the generated artifact. -/
theorem cache_put_failure_still_200_witness :
    (lambda_handler envPutFail st0 evDaily).response.statusCode = 200 ∧
    (lambda_handler envPutFail st0 evDaily).response.body =
      .raw (b64encode "DPDF") ∧
    ("X-Cache", "MISS") ∈ (lambda_handler envPutFail st0 evDaily).response.headers ∧
    (lambda_handler envPutFail st0 evDaily).store.cache = st0.cache ∧
    .cachePut (generate_cache_key envPutFail.now "morning" (some "2025-11-08")
        false false none none none) ∈
      (lambda_handler envPutFail st0 evDaily).effects :=
  cache_put_failure_still_200 envPutFail st0 evDaily
    { prayer_type := "morning", date_string := some "2025-11-08",
      remarkable := false, bypass_cache := false, is_monthly := false,
      year := none, month := none, psalm_cycle := none }
    "morning_prayer_2025-11-08.pdf" "DPDF"
    (by decide) (by exact rfl) rfl (Or.inr (by exact rfl)) rfl (by exact rfl)

/-- C7: a monthly request that misses the cache (or bypasses it) makes
the router create a Pending job record carrying the originating
parameters and the target cache key, fire the generator asynchronously,
and answer 202 with the job id at once; the job record is written before
the invocation, the generator is never invoked synchronously, and the
whole outcome is independent of the generator environment
(fire-and-forget). -/
theorem monthly_miss_creates_pending_job (env : Env) (st : Store) (ev : Event)
    (p : ParsedReq)
    (hres : ev.resource ≠ jobResource)
    (hval : routerValidate env.now (ev.queryStringParameters.getD {}) = .ok p)
    (hm : p.is_monthly = true)
    (hmiss : p.bypass_cache = true ∨
      st.cache (generate_cache_key env.now p.prayer_type p.date_string
        p.remarkable p.is_monthly p.year p.month p.psalm_cycle) = none)
    (hjob : env.jobCreateOk = true) (hasync : env.asyncInvokeOk = true) :
    (lambda_handler env st ev).response.statusCode = 202 ∧
    (lambda_handler env st ev).response.body =
      .json [("status", .s "pending"), ("job_id", .s env.uuid),
        ("message", .s "Monthly PDF generation started. Poll /job/\x7bjob_id\x7d for status.")] ∧
    (lambda_handler env st ev).store.jobStatus env.uuid =
      some (pendingJob env.now p (generate_cache_key env.now p.prayer_type
        p.date_string p.remarkable p.is_monthly p.year p.month
        p.psalm_cycle)) ∧
    (lambda_handler env st ev).effects =
      [.deriveKey (generate_cache_key env.now p.prayer_type p.date_string
          p.remarkable p.is_monthly p.year p.month p.psalm_cycle)] ++
        (if p.bypass_cache then [] else
          [.cacheGet (generate_cache_key env.now p.prayer_type p.date_string
            p.remarkable p.is_monthly p.year p.month p.psalm_cycle)]) ++
        [.jobStatusPut env.uuid, .invokeAsync env.uuid] ∧
    (∀ g : GenEnv, lambda_handler { env with genv := g } st ev =
      lambda_handler env st ev) := by
  cases hbp : p.bypass_cache with
  | true =>
    have hout : ∀ g : GenEnv, lambda_handler { env with genv := g } st ev =
        { response :=
            { statusCode := 202, headers := jsonHeaders,
              body := .json [("status", .s "pending"), ("job_id", .s env.uuid),
                ("message", .s "Monthly PDF generation started. Poll /job/\x7bjob_id\x7d for status.")] },
          store :=
            st.putJob env.uuid (pendingJob env.now p (generate_cache_key env.now
              p.prayer_type p.date_string p.remarkable true p.year p.month
              p.psalm_cycle)),
          effects :=
            [.deriveKey (generate_cache_key env.now p.prayer_type p.date_string
                p.remarkable true p.year p.month p.psalm_cycle),
             .jobStatusPut env.uuid, .invokeAsync env.uuid] } := by
      intro g
      simp only [lambda_handler, if_neg hres, hval, hm, hbp, hjob, hasync,
        if_true, Bool.true_eq_false, if_false]
      rfl
    have he : lambda_handler env st ev = _ := hout env.genv
    rw [hm, he]
    refine ⟨rfl, rfl, ?_, ?_, fun g => hout g⟩
    · simp [Store.putJob]
    · simp
  | false =>
    have hmiss' : st.cache (generate_cache_key env.now p.prayer_type p.date_string
        p.remarkable true p.year p.month p.psalm_cycle) = none := by
      rcases hmiss with h | h
      · rw [hbp] at h; simp at h
      · rw [hm] at h; exact h
    have hout : ∀ g : GenEnv, lambda_handler { env with genv := g } st ev =
        { response :=
            { statusCode := 202, headers := jsonHeaders,
              body := .json [("status", .s "pending"), ("job_id", .s env.uuid),
                ("message", .s "Monthly PDF generation started. Poll /job/\x7bjob_id\x7d for status.")] },
          store :=
            st.putJob env.uuid (pendingJob env.now p (generate_cache_key env.now
              p.prayer_type p.date_string p.remarkable true p.year p.month
              p.psalm_cycle)),
          effects :=
            [.deriveKey (generate_cache_key env.now p.prayer_type p.date_string
                p.remarkable true p.year p.month p.psalm_cycle),
             .cacheGet (generate_cache_key env.now p.prayer_type p.date_string
                p.remarkable true p.year p.month p.psalm_cycle),
             .jobStatusPut env.uuid, .invokeAsync env.uuid] } := by
      intro g
      simp only [lambda_handler, if_neg hres, hval, hm, hbp, hjob, hasync,
        if_true, Bool.false_eq_true, if_false, hmiss']
      rfl
    have he : lambda_handler env st ev = _ := hout env.genv
    rw [hm, he]
    refine ⟨rfl, rfl, ?_, ?_, fun g => hout g⟩
    · simp [Store.putJob]
    · simp

/-- C7 witness: the concrete monthly request `evMonthly` against the
empty bucket. -/
theorem monthly_miss_creates_pending_job_witness :
    (lambda_handler env0 st0 evMonthly).response.statusCode = 202 ∧
    (lambda_handler env0 st0 evMonthly).response.body =
      .json [("status", .s "pending"), ("job_id", .s env0.uuid),
        ("message", .s "Monthly PDF generation started. Poll /job/\x7bjob_id\x7d for status.")] ∧
    (lambda_handler env0 st0 evMonthly).store.jobStatus env0.uuid =
      some (pendingJob env0.now
        { prayer_type := "evening", date_string := none, remarkable := false,
          bypass_cache := false, is_monthly := true, year := some 2025,
          month := some 12, psalm_cycle := none }
        (generate_cache_key env0.now "evening" none false true (some 2025)
          (some 12) none)) ∧
    (lambda_handler env0 st0 evMonthly).effects =
      [.deriveKey (generate_cache_key env0.now "evening" none false true
          (some 2025) (some 12) none)] ++
        (if false then [] else
          [.cacheGet (generate_cache_key env0.now "evening" none false true
            (some 2025) (some 12) none)]) ++
        [.jobStatusPut env0.uuid, .invokeAsync env0.uuid] ∧
    (∀ g : GenEnv, lambda_handler { env0 with genv := g } st0 evMonthly =
      lambda_handler env0 st0 evMonthly) :=
  monthly_miss_creates_pending_job env0 st0 evMonthly
    { prayer_type := "evening", date_string := none, remarkable := false,
      bypass_cache := false, is_monthly := true, year := some 2025,
      month := some 12, psalm_cycle := none }
    (by decide) (by exact rfl) rfl (Or.inr (by exact rfl)) rfl rfl

/-- The generator lambda never reads `psalm_cycle` when the monthly flag
is off: two events differing only in that parameter get identical
outcomes. -/
theorem generatorHandler_cycle_blind (genv : GenEnv) (st : Store)
    (re : String) (pp : Option PathParams) (jb : Option String)
    (qp : QueryParams) (c1 c2 : Option String)
    (hm : flagTrue qp.monthly = false) :
    generatorHandler genv st
      { resource := re, pathParameters := pp,
        queryStringParameters := some { qp with psalm_cycle := c1 },
        job_id := jb } =
    generatorHandler genv st
      { resource := re, pathParameters := pp,
        queryStringParameters := some { qp with psalm_cycle := c2 },
        job_id := jb } := by
  simp only [generatorHandler, Option.getD_some, hm, Bool.false_eq_true,
    if_false]

/-- C9: for a request without the monthly flag, the router's whole
outcome — response, store and effect trace, including the derived cache
key and the dispatch path — is identical whatever the `psalm_cycle`
parameter holds (present, absent, or malformed); the parameter is parsed
and validated only on monthly requests. -/
theorem daily_ignores_psalm_cycle (env : Env) (st : Store)
    (re : String) (pp : Option PathParams) (jb : Option String)
    (qp : QueryParams) (c1 c2 : Option String)
    (hm : flagTrue qp.monthly = false) :
    lambda_handler env st
      { resource := re, pathParameters := pp,
        queryStringParameters := some { qp with psalm_cycle := c1 },
        job_id := jb } =
    lambda_handler env st
      { resource := re, pathParameters := pp,
        queryStringParameters := some { qp with psalm_cycle := c2 },
        job_id := jb } := by
  by_cases hre : re = jobResource
  · simp only [lambda_handler, hre, if_true, handle_job_status_request]
  · simp only [lambda_handler, hre, if_false, Option.getD_some, routerValidate,
      hm, Bool.false_eq_true,
      generatorHandler_cycle_blind env.genv st re pp jb qp c1 c2 hm]

/-- C9 witness: a daily request with `psalm_cycle=30` and one with a
malformed `psalm_cycle=banana` produce identical outcomes. -/
theorem daily_ignores_psalm_cycle_witness :
    lambda_handler env0 st0
      { resource := "", pathParameters := none,
        queryStringParameters := some
          { type := some "morning", date := some "2025-11-08",
            psalm_cycle := some "30" },
        job_id := none } =
    lambda_handler env0 st0
      { resource := "", pathParameters := none,
        queryStringParameters := some
          { type := some "morning", date := some "2025-11-08",
            psalm_cycle := some "banana" },
        job_id := none } :=
  daily_ignores_psalm_cycle env0 st0 "" none none
    { type := some "morning", date := some "2025-11-08" }
    (some "30") (some "banana") (by exact rfl)

/-- The year validator: accept, or reject with its 400. -/
theorem routerYearField_cases (now : Now) (qp : QueryParams) :
    (∃ y, routerYearField now qp = .ok y) ∨
    routerYearField now qp = .error (resp400 "Invalid year format. Expected YYYY") := by
  unfold routerYearField
  repeat' split
  all_goals simp

/-- The month validator: accept, or reject with its 400. -/
theorem routerMonthField_cases (now : Now) (qp : QueryParams) :
    (∃ m, routerMonthField now qp = .ok m) ∨
    routerMonthField now qp = .error (resp400 "Invalid month. Must be 1-12") := by
  unfold routerMonthField
  repeat' split
  all_goals simp

/-- The psalm-cycle validator: accept, or reject with its 400. -/
theorem routerCycField_cases (qp : QueryParams) :
    (∃ c, routerCycField qp = .ok c) ∨
    routerCycField qp = .error (resp400 "Invalid psalm_cycle. Must be 30 or 60") := by
  unfold routerCycField
  repeat' split
  all_goals simp

/-- A bad year is rejected by the year validator. -/
theorem routerYearField_bad (now : Now) (qp : QueryParams)
    (h : badYearB qp = true) :
    routerYearField now qp = .error (resp400 "Invalid year format. Expected YYYY") := by
  simp only [badYearB, Bool.and_eq_true, Option.isNone_iff_eq_none] at h
  obtain ⟨h1, h2⟩ := h
  simp only [routerYearField, h1, if_true, h2]

/-- A bad month is rejected by the month validator. -/
theorem routerMonthField_bad (now : Now) (qp : QueryParams)
    (h : badMonthB qp = true) :
    routerMonthField now qp = .error (resp400 "Invalid month. Must be 1-12") := by
  simp only [badMonthB, Bool.and_eq_true] at h
  obtain ⟨h1, h2⟩ := h
  simp only [routerMonthField, h1, if_true]
  cases hp : pyInt? (qp.month.getD "") with
  | none => rfl
  | some m =>
    rw [hp] at h2
    simp only [Bool.not_eq_eq_eq_not, Bool.not_true, Bool.and_eq_false_iff,
      decide_eq_false_iff_not] at h2
    have hnot : ¬(1 ≤ m ∧ m ≤ 12) := by
      intro hc
      rcases h2 with h2 | h2
      exacts [h2 hc.1, h2 hc.2]
    simp [hnot]

/-- A bad psalm cycle is rejected by the cycle validator. -/
theorem routerCycField_bad (qp : QueryParams)
    (h : badCycleB qp = true) :
    routerCycField qp = .error (resp400 "Invalid psalm_cycle. Must be 30 or 60") := by
  simp only [badCycleB, Bool.and_eq_true] at h
  obtain ⟨h1, h2⟩ := h
  simp only [routerCycField, h1, if_true]
  cases hp : pyInt? (qp.psalm_cycle.getD "") with
  | none => rfl
  | some c =>
    rw [hp] at h2
    simp only [Bool.not_eq_eq_eq_not, Bool.not_true, Bool.or_eq_false_iff,
      beq_eq_false_iff_ne, ne_eq] at h2
    have hnot : ¬(c = 30 ∨ c = 60) := by
      intro hc
      rcases hc with hc | hc
      exacts [h2.1 hc, h2.2 hc]
    simp [hnot]

/-- `validTypeB` names exactly the validator's prayer-type test. -/
theorem validTypeB_iff (qp : QueryParams) :
    validTypeB qp = true ↔
      (lowerStr (qp.type.getD "") = "morning" ∨
       lowerStr (qp.type.getD "") = "evening" ∨
       lowerStr (qp.type.getD "") = "midday" ∨
       lowerStr (qp.type.getD "") = "compline") := by
  simp [validTypeB, or_assoc]

/-- An invalid field makes the validator reject with a 400. -/
theorem routerValidate_bad_field (now : Now) (qp : QueryParams)
    (hbad : validTypeB qp = false ∨
      (flagTrue qp.monthly = true ∧
        (badYearB qp = true ∨ badMonthB qp = true ∨ badCycleB qp = true))) :
    ∃ r, routerValidate now qp = .error r ∧ r.statusCode = 400 := by
  by_cases htype : validTypeB qp = true
  · have htypeP := (validTypeB_iff qp).mp htype
    rcases hbad with hbad | ⟨hmon, hbad⟩
    · rw [htype] at hbad; cases hbad
    · rcases routerYearField_cases now qp with ⟨y, hy⟩ | hy
      · rcases routerMonthField_cases now qp with ⟨m, hmn⟩ | hmn
        · rcases routerCycField_cases qp with ⟨c, hc⟩ | hc
          · rcases hbad with hb | hb | hb
            · rw [routerYearField_bad now qp hb] at hy; cases hy
            · rw [routerMonthField_bad now qp hb] at hmn; cases hmn
            · rw [routerCycField_bad qp hb] at hc; cases hc
          · refine ⟨resp400 "Invalid psalm_cycle. Must be 30 or 60", ?_, rfl⟩
            simp only [routerValidate, if_pos htypeP, hmon, if_true, hy, hmn, hc]
        · refine ⟨resp400 "Invalid month. Must be 1-12", ?_, rfl⟩
          simp only [routerValidate, if_pos htypeP, hmon, if_true, hy, hmn]
      · refine ⟨resp400 "Invalid year format. Expected YYYY", ?_, rfl⟩
        simp only [routerValidate, if_pos htypeP, hmon, if_true, hy]
  · have htypeP : ¬(lowerStr (qp.type.getD "") = "morning" ∨
        lowerStr (qp.type.getD "") = "evening" ∨
        lowerStr (qp.type.getD "") = "midday" ∨
        lowerStr (qp.type.getD "") = "compline") :=
      fun hc => htype ((validTypeB_iff qp).mpr hc)
    refine ⟨resp400
      "Invalid or missing prayer type. Must be one of: morning, evening, midday, compline",
      ?_, rfl⟩
    simp only [routerValidate, if_neg htypeP]

/-- C2 (amended): a request with an unsupported prayer type — or, when
the monthly flag is set, a malformed year, an out-of-range month, or a
psalm cycle outside {30, 60} — is rejected 400 by the router before any
key derivation and before any store or registry access, with no side
effects.  (The `date` field is the exception this amendment carves out:
the router never validates it; see the counterexample.) -/
theorem validation_fails_fast (env : Env) (st : Store) (ev : Event)
    (hres : ev.resource ≠ jobResource)
    (hbad : validTypeB (ev.queryStringParameters.getD {}) = false ∨
      (flagTrue (ev.queryStringParameters.getD {}).monthly = true ∧
        (badYearB (ev.queryStringParameters.getD {}) = true ∨
         badMonthB (ev.queryStringParameters.getD {}) = true ∨
         badCycleB (ev.queryStringParameters.getD {}) = true))) :
    (lambda_handler env st ev).response.statusCode = 400 ∧
    (lambda_handler env st ev).effects = [] ∧
    (lambda_handler env st ev).store = st := by
  obtain ⟨r, hr, hcode⟩ := routerValidate_bad_field env.now _ hbad
  have hout : lambda_handler env st ev =
      { response := r, store := st, effects := [] } := by
    simp only [lambda_handler, if_neg hres, hr]
  rw [hout]
  exact ⟨hcode, rfl, rfl⟩

/-- C2 witness (for the amended claim): a monthly request with
`year=20x5` is rejected 400 with an empty effect trace. -/
theorem validation_fails_fast_witness :
    (lambda_handler env0 st0
      { queryStringParameters := some
          { type := some "evening", monthly := some "true",
            year := some "20x5" } }).response.statusCode = 400 ∧
    (lambda_handler env0 st0
      { queryStringParameters := some
          { type := some "evening", monthly := some "true",
            year := some "20x5" } }).effects = [] ∧
    (lambda_handler env0 st0
      { queryStringParameters := some
          { type := some "evening", monthly := some "true",
            year := some "20x5" } }).store = st0 :=
  validation_fails_fast env0 st0
    { queryStringParameters := some
        { type := some "evening", monthly := some "true",
          year := some "20x5" } }
    (by decide) (Or.inr ⟨by exact rfl, Or.inl (by exact rfl)⟩)

/-- C2 counterexample: on a daily request with the malformed date
`not-a-date`, the router does *not* fail fast: it derives the cache key,
reads the cache, and synchronously invokes the generator; the eventual
400 is the generator's.  This refutes the claim that every
invalid-field request gets its 400 before key derivation and store
access and without side effects. -/
theorem validation_fails_fast_cex :
    (lambda_handler env0 st0 evBadDate).response.statusCode = 400 ∧
    (lambda_handler env0 st0 evBadDate).response.body =
      .json [("error", .s "Invalid date format: not-a-date. Expected YYYY-MM-DD")] ∧
    .deriveKey "prayers/daily/morning/not-a-date/letter.pdf" ∈
      (lambda_handler env0 st0 evBadDate).effects ∧
    .cacheGet "prayers/daily/morning/not-a-date/letter.pdf" ∈
      (lambda_handler env0 st0 evBadDate).effects ∧
    .invokeSync ∈ (lambda_handler env0 st0 evBadDate).effects := by
  refine ⟨?_, ?_, ?_, ?_, ?_⟩ <;> decide

/-- `update_job_status` always attempts a read then a put. -/
theorem update_job_status_effects (env : GenEnv) (st : Store)
    (jid s : String) (err : Option String) :
    (update_job_status env st jid s err).2 = [.jobStatusGet jid, .jobStatusPut jid] := by
  simp only [update_job_status]
  split <;> rfl

/-- `update_job_status` never touches job results. -/
theorem update_job_status_jobResult (env : GenEnv) (st : Store)
    (jid s : String) (err : Option String) :
    (update_job_status env st jid s err).1.jobResult = st.jobResult := by
  simp only [update_job_status, Store.putJob]
  split <;> rfl

/-- When its put succeeds, `update_job_status` records the new status. -/
theorem update_job_status_sets (env : GenEnv) (st : Store)
    (jid s : String) (err : Option String) (h : env.statusPutOk = true) :
    ((update_job_status env st jid s err).1.jobStatus jid).map
      JobStatusData.status = some s := by
  simp only [update_job_status, h, if_true, Store.putJob, if_pos rfl]
  cases err with
  | none => rfl
  | some e => by_cases he : e = "" <;> simp [he]

/-- `store_job_result`'s trace: the result put first, then at most a
cache put. -/
theorem store_job_result_shape (env : GenEnv) (st : Store) (jid pdf : String)
    (ck : Option String) :
    ∃ mid, (store_job_result env st jid pdf ck).2 = .jobResultPut jid :: mid ∧
      ∀ e ∈ mid, ∃ k, e = .cachePut k := by
  simp only [store_job_result]
  repeat' split
  all_goals refine ⟨_, rfl, ?_⟩
  all_goals intro e he
  all_goals fin_cases he
  all_goals exact ⟨_, rfl⟩

/-- When the result put succeeds, the result is fetchable. -/
theorem store_job_result_ok (env : GenEnv) (st : Store) (jid pdf : String)
    (ck : Option String) (h : env.resultPutOk = true) :
    (store_job_result env st jid pdf ck).1.jobResult jid = some pdf := by
  simp only [store_job_result, h, if_true]
  repeat' split
  all_goals simp [Store.putCache, Store.putResult]

/-- When the result put fails, the exception is swallowed and the store
is untouched. -/
theorem store_job_result_fail (env : GenEnv) (st : Store) (jid pdf : String)
    (ck : Option String) (h : env.resultPutOk = false) :
    (store_job_result env st jid pdf ck).1 = st := by
  simp [store_job_result, h]

/-- C1 (amended): on a successful async monthly generation, the
completion protocol *attempts* the artifact writes (job result, then the
target cache key) strictly before the status write, and when the artifact
write succeeds a Completed job does have a fetchable artifact; but a
failed artifact write is logged and swallowed, the status is still set to
Completed, and the job result is left as it was — so Completed alone does
not guarantee a fetchable artifact. -/
theorem async_completion_protocol (genv : GenEnv) (st : Store) (ev : Event)
    (jid : String) (y m : Int) (cyc : Option Int) (pdf : String)
    (hjid : ev.job_id = some jid)
    (htype : lowerStr ((ev.queryStringParameters.getD {}).type.getD "") = "morning" ∨
      lowerStr ((ev.queryStringParameters.getD {}).type.getD "") = "evening" ∨
      lowerStr ((ev.queryStringParameters.getD {}).type.getD "") = "midday" ∨
      lowerStr ((ev.queryStringParameters.getD {}).type.getD "") = "compline")
    (hmon : flagTrue (ev.queryStringParameters.getD {}).monthly = true)
    (hfields : genMonthlyFields genv.now (ev.queryStringParameters.getD {}) = .ok (y, m, cyc))
    (hgen : genv.genMonthly (lowerStr ((ev.queryStringParameters.getD {}).type.getD ""))
      y m (if flagTrue (ev.queryStringParameters.getD {}).remarkable
           then "remarkable" else "letter") cyc = .ok pdf) :
    (generatorHandler genv st ev).response.statusCode = 200 ∧
    (∃ mid, (generatorHandler genv st ev).effects =
        .jobStatusGet jid :: .jobResultPut jid ::
          (mid ++ [.jobStatusGet jid, .jobStatusPut jid]) ∧
      ∀ e ∈ mid, ∃ k, e = .cachePut k) ∧
    (genv.resultPutOk = true →
      (generatorHandler genv st ev).store.jobResult jid = some pdf) ∧
    (genv.statusPutOk = true →
      ((generatorHandler genv st ev).store.jobStatus jid).map
        JobStatusData.status = some "completed") ∧
    (genv.resultPutOk = false →
      (generatorHandler genv st ev).store.jobResult jid = st.jobResult jid) := by
  have hout : generatorHandler genv st ev =
      { response :=
          { statusCode := 200,
            body := .json [("status", .s "completed"), ("job_id", .s jid)] },
        store := (update_job_status genv
          (store_job_result genv st jid pdf (jobTargetKey st jid)).1 jid
          "completed" none).1,
        effects := [.jobStatusGet jid] ++
          (store_job_result genv st jid pdf (jobTargetKey st jid)).2 ++
          (update_job_status genv
            (store_job_result genv st jid pdf (jobTargetKey st jid)).1 jid
            "completed" none).2 } := by
    simp only [generatorHandler, hjid, Option.isSome_some, Option.getD_some,
      if_pos htype, hmon, if_true, hfields, hgen]
  rw [hout]
  refine ⟨rfl, ?_, ?_, ?_, ?_⟩
  · obtain ⟨mid, hmid, hcp⟩ :=
      store_job_result_shape genv st jid pdf (jobTargetKey st jid)
    refine ⟨mid, ?_, hcp⟩
    rw [hmid, update_job_status_effects]
    simp
  · intro h
    rw [update_job_status_jobResult]
    exact store_job_result_ok genv st jid pdf (jobTargetKey st jid) h
  · intro h
    exact update_job_status_sets genv _ jid "completed" none h
  · intro h
    rw [update_job_status_jobResult,
      store_job_result_fail genv st jid pdf (jobTargetKey st jid) h]

/-- C1 witness: the amended protocol applied to the concrete async job
`j1` (in the state the router's 202 left behind) with the result put
failing. -/
theorem async_completion_protocol_witness :
    (generatorHandler genvResultPutFail stAfterAccept evAsync).response.statusCode = 200 ∧
    (∃ mid, (generatorHandler genvResultPutFail stAfterAccept evAsync).effects =
        .jobStatusGet "j1" :: .jobResultPut "j1" ::
          (mid ++ [.jobStatusGet "j1", .jobStatusPut "j1"]) ∧
      ∀ e ∈ mid, ∃ k, e = .cachePut k) ∧
    (genvResultPutFail.resultPutOk = true →
      (generatorHandler genvResultPutFail stAfterAccept evAsync).store.jobResult "j1" =
        some "MPDF") ∧
    (genvResultPutFail.statusPutOk = true →
      ((generatorHandler genvResultPutFail stAfterAccept evAsync).store.jobStatus "j1").map
        JobStatusData.status = some "completed") ∧
    (genvResultPutFail.resultPutOk = false →
      (generatorHandler genvResultPutFail stAfterAccept evAsync).store.jobResult "j1" =
        stAfterAccept.jobResult "j1") :=
  async_completion_protocol genvResultPutFail stAfterAccept evAsync
    "j1" 2025 12 none "MPDF" rfl (by decide) (by exact rfl) (by exact rfl)
    (by exact rfl)

/-- C1 counterexample: a reachable run — the router accepts `evMonthly`
and creates pending job `j1`; the async generator then succeeds but its
result put fails — ends with the job marked Completed while no artifact
exists at its result location, refuting both "status is set to Completed
only after that write succeeds" and "Completed implies a fetchable
artifact". -/
theorem completed_without_artifact_cex :
    stAfterAccept = (lambda_handler env0 st0 evMonthly).store ∧
    (((generatorHandler genvResultPutFail stAfterAccept evAsync).store.jobStatus
        "j1").map JobStatusData.status = some "completed") ∧
    (generatorHandler genvResultPutFail stAfterAccept evAsync).store.jobResult
      "j1" = none := by
  refine ⟨rfl, ?_, ?_⟩ <;> decide

/-! ## Key-separation machinery: splitting a slash-delimited key back
into its tokens. -/

/-- Splitting at a separator absent from both prefixes is unambiguous. -/
theorem sepSplit {sep : Char} :
    ∀ {a a' b b' : List Char}, sep ∉ a → sep ∉ a' →
      a ++ sep :: b = a' ++ sep :: b' → a = a' ∧ b = b' := by
  intro a
  induction a with
  | nil =>
    intro a' b b' _ ha' h
    cases a' with
    | nil => simpa using h
    | cons x xs =>
      simp only [List.nil_append, List.cons_append, List.cons.injEq] at h
      exact absurd (h.1 ▸ List.mem_cons_self x xs) ha'
  | cons c cs ih =>
    intro a' b b' ha ha' h
    cases a' with
    | nil =>
      simp only [List.cons_append, List.nil_append, List.cons.injEq] at h
      exact absurd (h.1 ▸ List.mem_cons_self c cs) (h.1 ▸ ha)
    | cons x xs =>
      simp only [List.cons_append, List.cons.injEq] at h
      obtain ⟨hcx, hrest⟩ := h
      have hcs : sep ∉ cs := fun hm => ha (List.mem_cons_of_mem c hm)
      have hxs : sep ∉ xs := fun hm => ha' (List.mem_cons_of_mem x hm)
      obtain ⟨h1, h2⟩ := ih hcs hxs hrest
      exact ⟨by rw [hcx, h1], h2⟩

/-- Digit characters are injective below 10. -/
theorem digCh_inj : ∀ a < 10, ∀ b < 10, digCh a = digCh b → a = b := by decide

/-- Digit characters are never the slash. -/
theorem digCh_ne_slash : ∀ d < 10, digCh d ≠ '/' := by decide

/-- Digit characters are never the dash. -/
theorem digCh_ne_dash : ∀ d < 10, digCh d ≠ '-' := by decide

/-- The fuel argument of `natDecAux` is irrelevant once sufficient. -/
theorem natDecAux_congr :
    ∀ (n f f' : Nat), n < f → n < f' → natDecAux f n = natDecAux f' n := by
  intro n
  induction n using Nat.strong_induction_on with
  | _ n ih =>
    intro f f' hf hf'
    cases f with
    | zero => omega
    | succ f =>
      cases f' with
      | zero => omega
      | succ f' =>
        simp only [natDecAux]
        by_cases h10 : n < 10
        · simp [h10]
        · have hdiv : n / 10 < n := Nat.div_lt_self (by omega) (by omega)
          simp only [h10, if_false]
          rw [ih (n / 10) hdiv f f' (by omega) (by omega)]

/-- One digit for small numbers. -/
theorem natDec_data_lt10 (n : Nat) (h : n < 10) : (natDec n).data = [digCh n] := by
  simp [natDec, natDecAux, h]

/-- Peel the last digit for larger numbers. -/
theorem natDec_data_ge10 (n : Nat) (h : 10 ≤ n) :
    (natDec n).data = (natDec (n / 10)).data ++ [digCh (n % 10)] := by
  show natDecAux (n + 1) n = natDecAux (n / 10 + 1) (n / 10) ++ [digCh (n % 10)]
  rw [show natDecAux (n + 1) n =
      (if n < 10 then [digCh n] else natDecAux n (n / 10) ++ [digCh (n % 10)]) from rfl]
  rw [if_neg (by omega)]
  have hdiv : n / 10 < n := Nat.div_lt_self (by omega) (by omega)
  rw [natDecAux_congr (n / 10) n (n / 10 + 1) (by omega) (by omega)]

/-- Every character of a decimal rendering is a digit character. -/
theorem natDec_chars (n : Nat) :
    ∀ c ∈ (natDec n).data, ∃ d, d < 10 ∧ c = digCh d := by
  induction n using Nat.strong_induction_on with
  | _ n ih =>
    intro c hc
    by_cases h10 : n < 10
    · rw [natDec_data_lt10 n h10] at hc
      simp only [List.mem_singleton] at hc
      exact ⟨n, h10, hc⟩
    · rw [natDec_data_ge10 n (by omega)] at hc
      rcases List.mem_append.mp hc with hc | hc
      · exact ih (n / 10) (Nat.div_lt_self (by omega) (by omega)) c hc
      · simp only [List.mem_singleton] at hc
        exact ⟨n % 10, Nat.mod_lt n (by omega), hc⟩

/-- A decimal rendering never contains a slash. -/
theorem natDec_no_slash (n : Nat) : '/' ∉ (natDec n).data := by
  intro h
  obtain ⟨d, hd, hc⟩ := natDec_chars n '/' h
  exact digCh_ne_slash d hd hc.symm

/-- A decimal rendering never contains a dash. -/
theorem natDec_no_dash (n : Nat) : '-' ∉ (natDec n).data := by
  intro h
  obtain ⟨d, hd, hc⟩ := natDec_chars n '-' h
  exact digCh_ne_dash d hd hc.symm

/-- A decimal rendering is never empty. -/
theorem natDec_ne_nil (n : Nat) : (natDec n).data ≠ [] := by
  by_cases h10 : n < 10
  · rw [natDec_data_lt10 n h10]; simp
  · rw [natDec_data_ge10 n (by omega)]; simp

/-- Two strings with the same character list are equal. -/
theorem strEta (a b : String) (h : a.data = b.data) : a = b := by
  cases a
  cases b
  exact congrArg String.mk h

/-- Decimal renderings are injective. -/
theorem natDec_inj : ∀ a b : Nat, natDec a = natDec b → a = b := by
  intro a
  induction a using Nat.strong_induction_on with
  | _ a ih =>
    intro b h
    have hd : (natDec a).data = (natDec b).data := congrArg String.data h
    by_cases ha : a < 10 <;> by_cases hb : b < 10
    · rw [natDec_data_lt10 a ha, natDec_data_lt10 b hb] at hd
      simp only [List.cons.injEq] at hd
      exact digCh_inj a ha b hb hd.1
    · rw [natDec_data_lt10 a ha, natDec_data_ge10 b (by omega)] at hd
      cases hbe : (natDec (b / 10)).data with
      | nil => exact absurd hbe (natDec_ne_nil (b / 10))
      | cons x xs =>
        rw [hbe] at hd
        have := congrArg List.length hd
        simp at this
    · rw [natDec_data_ge10 a (by omega), natDec_data_lt10 b hb] at hd
      cases hae : (natDec (a / 10)).data with
      | nil => exact absurd hae (natDec_ne_nil (a / 10))
      | cons x xs =>
        rw [hae] at hd
        have := congrArg List.length hd
        simp at this
    · rw [natDec_data_ge10 a (by omega), natDec_data_ge10 b (by omega)] at hd
      have hrev := congrArg List.reverse hd
      simp only [List.reverse_append, List.reverse_singleton,
        List.singleton_append, List.cons.injEq] at hrev
      obtain ⟨hlast, hrest⟩ := hrev
      have hdiv : a / 10 = b / 10 :=
        ih (a / 10) (Nat.div_lt_self (by omega) (by omega)) (b / 10)
          (strEta _ _ (List.reverse_injective hrest))
      have hmod : a % 10 = b % 10 :=
        digCh_inj (a % 10) (Nat.mod_lt a (by omega)) (b % 10)
          (Nat.mod_lt b (by omega)) hlast
      omega

/-- A nonnegative int renders like its natural value. -/
theorem intDec_nonneg (i : Int) (h : 0 ≤ i) : intDec i = natDec i.toNat := by
  simp [intDec, not_lt.mpr h]

/-- `intDec` is injective on nonnegative ints. -/
theorem intDec_inj_nonneg (a b : Int) (ha : 0 ≤ a) (hb : 0 ≤ b)
    (h : intDec a = intDec b) : a = b := by
  rw [intDec_nonneg a ha, intDec_nonneg b hb] at h
  have := natDec_inj _ _ h
  omega

/-- A nonnegative rendering contains no slash. -/
theorem intDec_no_slash (i : Int) (h : 0 ≤ i) : '/' ∉ (intDec i).data := by
  rw [intDec_nonneg i h]
  exact natDec_no_slash _

/-- Two digit characters for a two-digit-or-padded value. -/
theorem pad2_data (i : Int) (h0 : 0 ≤ i) (h : i < 100) :
    (pad2 i).data = [digCh (i.toNat / 10), digCh (i.toNat % 10)] := by
  by_cases h10 : i < 10
  · have hp : pad2 i = "0" ++ intDec i := by simp [pad2, h0, h10]
    rw [hp, intDec_nonneg i h0]
    rw [String.data_append, natDec_data_lt10 i.toNat (by omega)]
    have hz : i.toNat / 10 = 0 := Nat.div_eq_of_lt (by omega)
    have hm : i.toNat % 10 = i.toNat := Nat.mod_eq_of_lt (by omega)
    rw [hz, hm]
    rfl
  · have hp : pad2 i = intDec i := by
      simp only [pad2,
        if_neg (show ¬(0 ≤ i ∧ i < 10) from fun hc => h10 hc.2)]
    rw [hp, intDec_nonneg i h0]
    rw [natDec_data_ge10 i.toNat (by omega)]
    have hlt : i.toNat / 10 < 10 := by omega
    rw [natDec_data_lt10 _ hlt]
    rfl

/-- `pad2` is injective on 0–99. -/
theorem pad2_inj (a b : Int) (ha0 : 0 ≤ a) (ha : a < 100) (hb0 : 0 ≤ b)
    (hb : b < 100) (h : (pad2 a).data = (pad2 b).data) : a = b := by
  rw [pad2_data a ha0 ha, pad2_data b hb0 hb] at h
  simp only [List.cons.injEq, and_true] at h
  have h1 := digCh_inj (a.toNat / 10) (by omega) (b.toNat / 10) (by omega) h.1
  have h2 := digCh_inj (a.toNat % 10) (by omega) (b.toNat % 10) (by omega) h.2
  omega

/-- A padded value contains no slash. -/
theorem pad2_no_slash (i : Int) (h0 : 0 ≤ i) (h : i < 100) :
    '/' ∉ (pad2 i).data := by
  rw [pad2_data i h0 h]
  simp only [List.mem_cons, List.not_mem_nil, or_false, not_or]
  refine ⟨?_, ?_⟩ <;> intro hc <;> exact digCh_ne_slash _ (by omega) hc.symm

/-- A padded value contains no dash. -/
theorem pad2_no_dash (i : Int) (h0 : 0 ≤ i) (h : i < 100) :
    '-' ∉ (pad2 i).data := by
  rw [pad2_data i h0 h]
  simp only [List.mem_cons, List.not_mem_nil, or_false, not_or]
  refine ⟨?_, ?_⟩ <;> intro hc <;> exact digCh_ne_dash _ (by omega) hc.symm

/-- The four kind spellings contain no slash. -/
theorem ptypeStr_no_slash (k : PrayerType) : '/' ∉ (PrayerType.str k).data := by
  cases k <;> decide

/-- The kind spelling determines the kind. -/
theorem ptypeStr_inj (k1 k2 : PrayerType) (h : k1.str = k2.str) : k1 = k2 := by
  revert h
  cases k1 <;> cases k2 <;> decide

/-- The character list of an ISO-rendered valid date. -/
theorem dateStrftime_data (dt : DateT) (h : dt.validB = true) :
    (dateStrftime dt).data =
      (natDec dt.y.toNat).data ++
        '-' :: ((pad2 dt.m).data ++ '-' :: (pad2 dt.d).data) := by
  simp only [DateT.validB, Bool.and_eq_true, decide_eq_true_eq] at h
  simp only [dateStrftime, intDec_nonneg dt.y h.1.1.1.1, String.data_append]
  simp [List.append_assoc, List.singleton_append]

/-- An ISO-rendered valid date contains no slash. -/
theorem dateStrftime_no_slash (dt : DateT) (h : dt.validB = true) :
    '/' ∉ (dateStrftime dt).data := by
  simp only [DateT.validB, Bool.and_eq_true, decide_eq_true_eq] at h
  obtain ⟨⟨⟨⟨hy, hm1⟩, hm2⟩, hd1⟩, hd2⟩ := h
  rw [dateStrftime_data dt (by simp [DateT.validB]; omega)]
  intro hc
  rcases List.mem_append.mp hc with hc | hc
  · exact natDec_no_slash _ hc
  · rcases List.mem_cons.mp hc with hc | hc
    · exact absurd hc (by decide)
    · rcases List.mem_append.mp hc with hc | hc
      · exact pad2_no_slash dt.m (by omega) (by omega) hc
      · rcases List.mem_cons.mp hc with hc | hc
        · exact absurd hc (by decide)
        · exact pad2_no_slash dt.d (by omega) (by omega) hc

/-- The ISO rendering determines a valid date. -/
theorem dateStrftime_inj (d1 d2 : DateT) (h1 : d1.validB = true)
    (h2 : d2.validB = true) (h : dateStrftime d1 = dateStrftime d2) :
    d1 = d2 := by
  have hb1 := h1
  have hb2 := h2
  simp only [DateT.validB, Bool.and_eq_true, decide_eq_true_eq] at hb1 hb2
  obtain ⟨⟨⟨⟨hy1, hm11⟩, hm12⟩, hd11⟩, hd12⟩ := hb1
  obtain ⟨⟨⟨⟨hy2, hm21⟩, hm22⟩, hd21⟩, hd22⟩ := hb2
  have hd := congrArg String.data h
  rw [dateStrftime_data d1 h1, dateStrftime_data d2 h2] at hd
  obtain ⟨hya, hrest⟩ := sepSplit (natDec_no_dash _) (natDec_no_dash _) hd
  obtain ⟨hma, hda⟩ :=
    sepSplit (pad2_no_dash d1.m (by omega) (by omega))
      (pad2_no_dash d2.m (by omega) (by omega)) hrest
  have hy : d1.y = d2.y := by
    have := natDec_inj _ _ (strEta _ _ hya)
    omega
  have hm : d1.m = d2.m :=
    pad2_inj _ _ (by omega) (by omega) (by omega) (by omega) hma
  have hdd : d1.d = d2.d :=
    pad2_inj _ _ (by omega) (by omega) (by omega) (by omega) hda
  cases d1
  cases d2
  simp_all

/-- The page-size token contains no slash. -/
theorem page_no_slash (r : Bool) :
    '/' ∉ ((if r then "remarkable" else "letter") : String).data := by
  cases r <;> decide

/-- Unpacking canonicity of a single-day descriptor. -/
theorem canonical_singleDay (k : PrayerType) (dt : DateT) (r : Bool)
    (c : Option Int)
    (h : Descriptor.Canonical ⟨k, .singleDay dt, r, c⟩) :
    dt.validB = true ∧ (c = none ∨ c = some 30 ∨ c = some 60) := by
  simp only [Descriptor.Canonical, Descriptor.canonicalB, Bool.and_eq_true,
    Bool.or_eq_true, beq_iff_eq] at h
  exact ⟨h.1, by tauto⟩

/-- Unpacking canonicity of a month-range descriptor. -/
theorem canonical_monthRange (k : PrayerType) (y m : Int) (r : Bool)
    (c : Option Int)
    (h : Descriptor.Canonical ⟨k, .monthRange y m, r, c⟩) :
    1 ≤ y ∧ 1 ≤ m ∧ m ≤ 12 ∧ (c = none ∨ c = some 30 ∨ c = some 60) := by
  simp only [Descriptor.Canonical, Descriptor.canonicalB, Bool.and_eq_true,
    Bool.or_eq_true, beq_iff_eq, decide_eq_true_eq] at h
  exact ⟨h.1.1.1, h.1.1.2, h.1.2, by tauto⟩

/-- The character list of a single-day derived key. -/
theorem deriveKey_singleDay_data (now : Now) (k : PrayerType) (dt : DateT)
    (rem : Bool) (cyc : Option Int) :
    (deriveKey now ⟨k, .singleDay dt, rem, cyc⟩).data =
      "prayers/daily/".data ++
        (k.str.data ++ '/' ::
          ((dateStrftime dt).data ++ '/' ::
            (((if rem then "remarkable" else "letter") : String).data ++
              ".pdf".data))) := by
  have ht : truthy (some (dateStrftime dt)) = true := by
    simp [truthy, dateStrftime_ne_empty dt]
  simp only [deriveKey, generate_cache_key, Bool.false_eq_true, if_false, ht,
    if_true, Option.getD_some, String.data_append]
  simp [List.append_assoc, List.singleton_append]

/-- The character list of a month-range derived key. -/
theorem deriveKey_monthRange_data (now : Now) (k : PrayerType) (y m : Int)
    (rem : Bool) (cyc : Option Int) (hy : 1 ≤ y) (hm : 1 ≤ m)
    (hcyc : cyc = none ∨ cyc = some 30 ∨ cyc = some 60) :
    (deriveKey now ⟨k, .monthRange y m, rem, cyc⟩).data =
      "prayers/monthly/".data ++
        (k.str.data ++ '/' ::
          ((intDec y).data ++ '/' ::
            ((pad2 m).data ++ '/' ::
              (((if rem then "remarkable" else "letter") : String).data ++ '/' ::
                (match cyc with
                 | some c => ("cycle" ++ intDec c ++ ".pdf" : String).data
                 | none => ("default.pdf" : String).data))))) := by
  have hyd : y ≠ 0 := by omega
  have hmd : m ≠ 0 := by omega
  rcases hcyc with hc | hc | hc
  all_goals subst hc
  all_goals simp only [deriveKey, generate_cache_key, intTruthy,
    Option.getD_some]
  all_goals simp [hyd, hmd, String.data_append, List.append_assoc,
    List.singleton_append]

/-- C3 (amended): for canonical descriptors, equal derived keys force
equal kind, scope (hence temporal fields) and variant; and, when the
scope is MonthRange, an equal cycle as well.  Contrapositively, two
canonical descriptors differing in kind, scope, variant — or in cycle on
the monthly shape — derive different keys.  The cycle dimension is *not*
separated on SingleDay keys, which carry no cycle token (see the
counterexample). -/
theorem deriveKey_separation (now : Now) (d1 d2 : Descriptor)
    (h1 : d1.Canonical) (h2 : d2.Canonical)
    (hk : deriveKey now d1 = deriveKey now d2) :
    d1.kind = d2.kind ∧ d1.scope = d2.scope ∧ d1.remarkable = d2.remarkable ∧
    (∀ y m, d1.scope = Scope.monthRange y m → d1.cycle = d2.cycle) := by
  obtain ⟨k1, sc1, r1, c1⟩ := d1
  obtain ⟨k2, sc2, r2, c2⟩ := d2
  have hd := congrArg String.data hk
  cases sc1 with
  | singleDay dt1 =>
    obtain ⟨hv1, hc1⟩ := canonical_singleDay k1 dt1 r1 c1 h1
    cases sc2 with
    | singleDay dt2 =>
      obtain ⟨hv2, hc2⟩ := canonical_singleDay k2 dt2 r2 c2 h2
      rw [deriveKey_singleDay_data, deriveKey_singleDay_data] at hd
      have hd2 := List.append_cancel_left hd
      obtain ⟨hkind, hrest⟩ :=
        sepSplit (ptypeStr_no_slash k1) (ptypeStr_no_slash k2) hd2
      obtain ⟨hdate, hpage⟩ :=
        sepSplit (dateStrftime_no_slash dt1 hv1) (dateStrftime_no_slash dt2 hv2)
          hrest
      have hk12 : k1 = k2 := ptypeStr_inj _ _ (strEta _ _ hkind)
      have hdt : dt1 = dt2 := dateStrftime_inj _ _ hv1 hv2 (strEta _ _ hdate)
      have hr : r1 = r2 := by
        cases r1 <;> cases r2 <;> first | rfl | exact absurd hpage (by decide)
      refine ⟨hk12, by rw [hdt], hr, ?_⟩
      intro y m hsc
      exact absurd hsc (by simp)
    | monthRange y2 m2 =>
      obtain ⟨hy2, hm21, hm22, hc2⟩ := canonical_monthRange k2 y2 m2 r2 c2 h2
      rw [deriveKey_singleDay_data,
        deriveKey_monthRange_data now k2 y2 m2 r2 c2 hy2 hm21 hc2] at hd
      exfalso
      simp at hd
  | monthRange y1 m1 =>
    obtain ⟨hy1, hm11, hm12, hc1⟩ := canonical_monthRange k1 y1 m1 r1 c1 h1
    cases sc2 with
    | singleDay dt2 =>
      obtain ⟨hv2, hc2⟩ := canonical_singleDay k2 dt2 r2 c2 h2
      rw [deriveKey_singleDay_data,
        deriveKey_monthRange_data now k1 y1 m1 r1 c1 hy1 hm11 hc1] at hd
      exfalso
      simp at hd
    | monthRange y2 m2 =>
      obtain ⟨hy2, hm21, hm22, hc2⟩ := canonical_monthRange k2 y2 m2 r2 c2 h2
      rw [deriveKey_monthRange_data now k1 y1 m1 r1 c1 hy1 hm11 hc1,
        deriveKey_monthRange_data now k2 y2 m2 r2 c2 hy2 hm21 hc2] at hd
      have hd2 := List.append_cancel_left hd
      obtain ⟨hkind, hrest⟩ :=
        sepSplit (ptypeStr_no_slash k1) (ptypeStr_no_slash k2) hd2
      obtain ⟨hyear, hrest2⟩ :=
        sepSplit (intDec_no_slash y1 (by omega)) (intDec_no_slash y2 (by omega))
          hrest
      obtain ⟨hmon, hrest3⟩ :=
        sepSplit (pad2_no_slash m1 (by omega) (by omega))
          (pad2_no_slash m2 (by omega) (by omega)) hrest2
      obtain ⟨hpage, hcycs⟩ :=
        sepSplit (page_no_slash r1) (page_no_slash r2) hrest3
      have hk12 : k1 = k2 := ptypeStr_inj _ _ (strEta _ _ hkind)
      have hy12 : y1 = y2 :=
        intDec_inj_nonneg _ _ (by omega) (by omega) (strEta _ _ hyear)
      have hmm : m1 = m2 :=
        pad2_inj _ _ (by omega) (by omega) (by omega) (by omega) hmon
      have hr : r1 = r2 := by
        cases r1 <;> cases r2 <;> first | rfl | exact absurd hpage (by decide)
      have hcy : c1 = c2 := by
        rcases hc1 with h | h | h <;> rcases hc2 with h' | h' | h' <;>
          subst h <;> subst h' <;>
          first | rfl | exact absurd hcycs (by decide)
      exact ⟨hk12, by rw [hy12, hmm], hr, fun y m _ => hcy⟩

/-- C3 witness: the separation theorem applied to two concrete canonical
monthly descriptors sharing a key. -/
theorem deriveKey_separation_witness :
    dMon60.kind = dMon60.kind ∧ dMon60.scope = dMon60.scope ∧
    dMon60.remarkable = dMon60.remarkable ∧
    (∀ y m, dMon60.scope = Scope.monthRange y m →
      dMon60.cycle = dMon60.cycle) :=
  deriveKey_separation now0 dMon60 dMon60 (by exact rfl) (by exact rfl) rfl

/-- C3 counterexample: two canonical SingleDay descriptors differing only
in cycle derive the *same* key, and that daily key contains neither a
`cycle` token nor the `default` marker — refuting both the all-dimension
separation and the every-key-has-a-cycle-token claim. -/
theorem deriveKey_separation_cex :
    dDay30 ≠ dDay60 ∧
    dDay30.Canonical ∧ dDay60.Canonical ∧
    dDay30.kind = dDay60.kind ∧ dDay30.scope = dDay60.scope ∧
    dDay30.remarkable = dDay60.remarkable ∧ dDay30.cycle ≠ dDay60.cycle ∧
    deriveKey now0 dDay30 = deriveKey now0 dDay60 ∧
    subList "cycle".data (deriveKey now0 dDay30).data = false ∧
    subList "default".data (deriveKey now0 dDay30).data = false := by
  exact ⟨by decide, by exact rfl, by exact rfl, rfl, rfl, rfl, by decide, rfl,
    by decide, by decide⟩

end DailyOffice
